import Mathlib

/-!
Shallow embedding of the Openwork Antigravity OAuth core:
the local callback listener, the PKCE / flow-state codec, the token
exchange and refresh client, and the multi-account token manager with its
external snapshot export.  Each definition is translated from the
TypeScript source of the repository; the account credential store itself
(`secureStorage`) is not part of the shown sources and is modelled from
the specification where noted.
-/

namespace Openwork

/-! ### Callback listener (server.ts)

The listener keeps a single module-level `pendingOAuth : PendingOAuth | null`.
We model the mutable cell as an explicit `Option PendingOAuth` threaded
through the handlers, and the promise resolution/rejection performed on the
pending flow as an explicit `FlowOutcome` event. -/

/-- The `PendingOAuth` record of `server.ts` (the resolve/reject closures are
represented by the emitted `FlowOutcome`); `state` is the expected state. -/
structure PendingOAuth where
  state : String
  deriving Repr, DecidableEq

/-- What happened to the pending flow's promise during a transition. -/
inductive FlowOutcome where
  /-- `pendingOAuth.resolve({code, state})` -/
  | resolved (code state : String)
  /-- `pendingOAuth.reject(new Error(msg))` -/
  | rejected (msg : String)
  deriving Repr, DecidableEq

/-- An incoming HTTP request as seen by `handleRequest`: the parsed path and
the `code`/`state`/`error` query parameters (`none` when absent;
`searchParams.get` yields `""` for a present-but-empty parameter). -/
structure HttpRequest where
  path : String
  code : Option String
  state : Option String
  error : Option String
  deriving Repr, DecidableEq

/-- JavaScript truthiness of a nullable string: `null`/`undefined` and the
empty string are falsy. -/
def jsTruthy : Option String → Bool
  | none => false
  | some s => s ≠ ""

/-- Result of one run of `handleRequest`: the HTTP status written, the event
fired on the pending flow's promise (if any), and the new value of the
`pendingOAuth` cell. -/
structure HandleResult where
  status : Nat
  outcome : Option FlowOutcome
  pending : Option PendingOAuth
  deriving Repr, DecidableEq

/-- `handleRequest` of `server.ts` (lines 393–455) as a pure transition on the
`pendingOAuth` cell. -/
def handleRequest (pending : Option PendingOAuth) (req : HttpRequest) :
    HandleResult :=
  if req.path ≠ "/oauth-callback" then
    { status := 404, outcome := none, pending := pending }
  else if jsTruthy req.error then
    -- `if (error) { …reject(`OAuth error: ${error}`)… }`
    match pending with
    | some _ =>
        { status := 400,
          outcome := some (.rejected ("OAuth error: " ++ req.error.getD "")),
          pending := none }
    | none => { status := 400, outcome := none, pending := none }
  else if ¬ jsTruthy req.code ∨ ¬ jsTruthy req.state then
    -- `if (!code || !state) { …reject('Missing code or state parameter')… }`
    match pending with
    | some _ =>
        { status := 400,
          outcome := some (.rejected "Missing code or state parameter"),
          pending := none }
    | none => { status := 400, outcome := none, pending := none }
  else
    -- `if (pendingOAuth && pendingOAuth.state !== state) { …reject('State mismatch')… }`
    -- else: success page; resolve if a flow is pending
    match pending with
    | some p =>
        if p.state ≠ req.state.getD "" then
          { status := 400, outcome := some (.rejected "State mismatch"),
            pending := none }
        else
          { status := 200,
            outcome := some (.resolved (req.code.getD "") (req.state.getD "")),
            pending := none }
    | none => { status := 200, outcome := none, pending := none }

/-- `waitForOAuthCallback` of `server.ts` (lines 511–542): registering a new
flow rejects any flow already pending with `'New OAuth flow started'` and
installs the new `PendingOAuth`.  The returned `Option FlowOutcome` is the
event fired on the superseded flow. -/
def waitForOAuthCallback (pending : Option PendingOAuth) (state : String) :
    Option FlowOutcome × PendingOAuth :=
  (pending.map (fun _ => .rejected "New OAuth flow started"), { state := state })

/-- `stopOAuthServer` of `server.ts` (lines 490–502), restricted to its effect
on the pending flow. -/
def stopOAuthServer (pending : Option PendingOAuth) :
    Option FlowOutcome × Option PendingOAuth :=
  (pending.map (fun _ => .rejected "OAuth server stopped"), none)

/-! ### Account credential store

`token-manager.ts` imports `storeAntigravityTokens`, `getAntigravityTokens`,
`deleteAntigravityTokens` and `listAntigravityAccounts` from
`../store/secureStorage`, which is not among the shown sources.  The store is
modelled from the spec as a finite map with stable enumeration order,
threaded explicitly. -/

/-- JavaScript `a || b` on a nullable string (`null`/`undefined` and `""` are
falsy). -/
def jsOr (a : Option String) (b : String) : String :=
  match a with
  | none => b
  | some s => if s = "" then b else s

/-- The `AntigravityStoredTokens` record persisted per account
(fields as used by `token-manager.ts`). -/
structure AntigravityStoredTokens where
  accessToken : String
  refreshToken : String
  expiresAt : Int
  projectId : String
  email : Option String
  createdAt : String
  lastUsedAt : Option String
  deriving Repr, DecidableEq

/-- Modelled from the spec: the Account Credential Store holds one token
record per account id, with stable enumeration order (a key–record list). -/
abbrev Store := List (String × AntigravityStoredTokens)

/-- Modelled from the spec: `get(accountId) -> record | absent`. -/
def getAntigravityTokens (st : Store) (accountId : String) :
    Option AntigravityStoredTokens :=
  (st.find? (fun e => e.1 = accountId)).map (·.2)

/-- Modelled from the spec: `put(accountId, record)` is an upsert, replacing
any existing record under that id and otherwise appending. -/
def storeAntigravityTokens (st : Store) (accountId : String)
    (t : AntigravityStoredTokens) : Store :=
  match st with
  | [] => [(accountId, t)]
  | e :: rest =>
      if e.1 = accountId then (accountId, t) :: rest
      else e :: storeAntigravityTokens rest accountId t

/-- Modelled from the spec: `delete(accountId) -> bool`, true iff a record
existed and was removed. -/
def deleteAntigravityTokens (st : Store) (accountId : String) : Bool × Store :=
  (st.any (fun e => e.1 = accountId), st.filter (fun e => e.1 ≠ accountId))

/-- Modelled from the spec: `list() -> account ids` in enumeration order. -/
def listAntigravityAccounts (st : Store) : List String := st.map (·.1)

/-! ### Identity provider client (oauth.ts) — token / refresh responses

Network I/O is represented by explicit response values: an `HttpResp` is
either an OK response with a parsed body or a non-OK/thrown outcome with the
error text the source surfaces. -/

/-- Outcome of one `fetchWithTimeout` call: an OK response with parsed JSON
body, or the error text the source extracts from a non-OK response (a thrown
network error surfaces through the surrounding `catch` the same way). -/
inductive HttpResp (α : Type) where
  | ok (body : α)
  | notOk (errorText : String)
  deriving Repr, DecidableEq

/-- The `GoogleTokenResponse` shape of `oauth.ts`: `refresh_token` is
optional. -/
structure GoogleTokenResponse where
  access_token : String
  expires_in : Int
  refresh_token : Option String
  token_type : String
  deriving Repr, DecidableEq

/-- `calculateTokenExpiry` of `oauth.ts` (lines 290–293). -/
def calculateTokenExpiry (startTime expiresIn : Int) : Int :=
  startTime + expiresIn * 1000

/-- The return shape of `refreshAccessToken`:
`{accessToken, expiresAt} | {error}` — it carries no refresh token. -/
inductive RefreshResult where
  | ok (accessToken : String) (expiresAt : Int)
  | error (e : String)
  deriving Repr, DecidableEq

/-- `refreshAccessToken` of `oauth.ts` (lines 439–474), as a function of the
request start time and the token-endpoint response. -/
def refreshAccessToken (startTime : Int)
    (resp : HttpResp GoogleTokenResponse) : RefreshResult :=
  match resp with
  | .notOk e => .error e
  | .ok payload =>
      .ok payload.access_token (calculateTokenExpiry startTime payload.expires_in)

/-! ### Token manager (token-manager.ts) -/

/-- `TOKEN_REFRESH_BUFFER_MS` of `constants.ts` (refresh 5 minutes before
expiry). -/
def TOKEN_REFRESH_BUFFER_MS : Int := 5 * 60 * 1000

/-- `ANTIGRAVITY_DEFAULT_PROJECT_ID` of `constants.ts`. -/
def ANTIGRAVITY_DEFAULT_PROJECT_ID : String := "rising-fact-p41fc"

/-- The `{token, projectId}` value returned by `getValidAccessToken`. -/
structure TokenHandle where
  token : String
  projectId : String
  deriving Repr, DecidableEq

/-- Result of one `getValidAccessToken` call: the returned value, the store
after the call, and how many refresh requests were issued. -/
structure GetTokenOut where
  result : Option TokenHandle
  store : Store
  refreshCalls : Nat
  deriving Repr, DecidableEq

/-- `getValidAccessToken` of `token-manager.ts` (lines 270–317).  `now` is
`Date.now()`, `nowIso` is `new Date().toISOString()`, and `refresh` maps a
refresh token to the outcome of `refreshAccessToken`. -/
def getValidAccessToken (st : Store) (accountId : String) (now : Int)
    (nowIso : String) (refresh : String → RefreshResult) : GetTokenOut :=
  match getAntigravityTokens st accountId with
  | none => { result := none, store := st, refreshCalls := 0 }
  | some tokens =>
      if tokens.expiresAt - now ≤ TOKEN_REFRESH_BUFFER_MS then
        match refresh tokens.refreshToken with
        | .error _ => { result := none, store := st, refreshCalls := 1 }
        | .ok newAccess newExpiresAt =>
            let updatedTokens : AntigravityStoredTokens :=
              { tokens with
                  accessToken := newAccess
                  expiresAt := newExpiresAt
                  lastUsedAt := some nowIso }
            { result := some { token := newAccess, projectId := tokens.projectId },
              store := storeAntigravityTokens st accountId updatedTokens,
              refreshCalls := 1 }
      else
        { result := some { token := tokens.accessToken,
                           projectId := tokens.projectId },
          store := storeAntigravityTokens st accountId
                     { tokens with lastUsedAt := some nowIso },
          refreshCalls := 0 }

/-! #### External snapshot (`syncToOpenCodePlugin`) -/

/-- One entry of the OpenCode plugin storage array built by
`syncToOpenCodePlugin`. -/
structure OpenCodeAccount where
  email : Option String
  refreshToken : String
  projectId : String
  addedAt : Int
  lastUsed : Int
  deriving Repr, DecidableEq

/-- The versioned OpenCode plugin storage document
(`{version: 3, accounts, activeIndex: 0}`). -/
structure OpenCodeStorage where
  version : Nat
  accounts : List OpenCodeAccount
  activeIndex : Nat
  deriving Repr, DecidableEq

/-- `syncToOpenCodePlugin` of `token-manager.ts` (lines 48–98) as the snapshot
it leaves on disk: `none` means the file is deleted (zero accounts), `some`
is the document written.  `parseMs` is `new Date(s).getTime()`. -/
def syncToOpenCodePlugin (parseMs : String → Int) (st : Store) :
    Option OpenCodeStorage :=
  let accounts : List OpenCodeAccount :=
    (listAntigravityAccounts st).filterMap (fun accountId =>
      match getAntigravityTokens st accountId with
      | some tokens =>
          -- `if (tokens?.refreshToken)` — JS truthiness on the string
          if tokens.refreshToken ≠ "" then
            some { email := tokens.email,
                   refreshToken := tokens.refreshToken,
                   projectId := tokens.projectId,
                   addedAt := parseMs tokens.createdAt,
                   lastUsed := parseMs (jsOr tokens.lastUsedAt tokens.createdAt) }
          else none
      | none => none)
  if accounts.isEmpty then none
  else some { version := 3, accounts := accounts, activeIndex := 0 }

/-! #### login / logout -/

/-- The `TokenExchangeSuccess` record of `oauth.ts`. -/
structure TokenExchangeSuccess where
  accessToken : String
  refreshToken : String
  expiresAt : Int
  email : Option String
  projectId : String
  deriving Repr, DecidableEq

/-- `TokenExchangeResult` of `oauth.ts`: tagged success/failure. -/
inductive TokenExchangeResult where
  | success (s : TokenExchangeSuccess)
  | failed (error : String)
  deriving Repr, DecidableEq

/-- The public account view returned by `login` / `getAccounts`. -/
structure AntigravityAccount where
  id : String
  email : String
  projectId : String
  createdAt : String
  lastUsedAt : Option String
  deriving Repr, DecidableEq

/-- `LoginResult` of `token-manager.ts`. -/
structure LoginResult where
  success : Bool
  account : Option AntigravityAccount
  error : Option String
  deriving Repr, DecidableEq

/-- Outcome of `await waitForOAuthCallback(auth.state)` inside `login`: the
resolved `{code, state}` parameters, or the rejection message (which the
surrounding `catch` turns into a failure result). -/
inductive CallbackResult where
  | ok (code state : String)
  | err (msg : String)
  deriving Repr, DecidableEq

/-- `login` of `token-manager.ts` (lines 131–201), as a function of the store
and snapshot, whether `startOAuthServer` succeeded, the callback outcome, the
`exchangeCodeForTokens` oracle, the generated account id and the current
ISO timestamp.  Returns the login result, the new store, and the new
snapshot. -/
def login (parseMs : String → Int) (st : Store) (snap : Option OpenCodeStorage)
    (serverStarted : Bool) (callback : CallbackResult)
    (exchange : String → String → TokenExchangeResult)
    (accountId nowIso : String) :
    LoginResult × Store × Option OpenCodeStorage :=
  if ¬ serverStarted then
    ({ success := false, account := none,
       error := some "Failed to start OAuth callback server. Port may be in use." },
     st, snap)
  else
    match callback with
    | .err e => ({ success := false, account := none, error := some e }, st, snap)
    | .ok code cbState =>
        match exchange code cbState with
        | .failed e =>
            ({ success := false, account := none, error := some e }, st, snap)
        | .success s =>
            let tokens : AntigravityStoredTokens :=
              { accessToken := s.accessToken,
                refreshToken := s.refreshToken,
                expiresAt := s.expiresAt,
                -- `result.projectId || ANTIGRAVITY_DEFAULT_PROJECT_ID`
                projectId := jsOr (some s.projectId) ANTIGRAVITY_DEFAULT_PROJECT_ID,
                email := s.email,
                createdAt := nowIso,
                lastUsedAt := some nowIso }
            let st2 := storeAntigravityTokens st accountId tokens
            let snap2 := syncToOpenCodePlugin parseMs st2
            ({ success := true,
               account := some { id := accountId,
                                 -- `result.email || 'Unknown'`
                                 email := jsOr s.email "Unknown",
                                 projectId := tokens.projectId,
                                 createdAt := nowIso,
                                 lastUsedAt := some nowIso },
               error := none },
             st2, snap2)

/-- `logout` of `token-manager.ts` (lines 206–213): deletes one account and
regenerates the snapshot when a record was removed. -/
def logout (parseMs : String → Int) (st : Store) (snap : Option OpenCodeStorage)
    (accountId : String) : Bool × Store × Option OpenCodeStorage :=
  let del := deleteAntigravityTokens st accountId
  if del.1 then (true, del.2, syncToOpenCodePlugin parseMs del.2)
  else (false, del.2, snap)

/-- The deletion loop of `logoutAll`. -/
def logoutAllGo : List String → Store → Nat → Nat × Store
  | [], st, n => (n, st)
  | accountId :: rest, st, n =>
      let del := deleteAntigravityTokens st accountId
      logoutAllGo rest del.2 (if del.1 then n + 1 else n)

/-- `logoutAll` of `token-manager.ts` (lines 218–234): deletes every listed
account and regenerates the snapshot when at least one was removed. -/
def logoutAll (parseMs : String → Int) (st : Store)
    (snap : Option OpenCodeStorage) : Nat × Store × Option OpenCodeStorage :=
  let r := logoutAllGo (listAntigravityAccounts st) st 0
  if r.1 > 0 then (r.1, r.2, syncToOpenCodePlugin parseMs r.2)
  else (r.1, r.2, snap)

/-- Result of `getAnyValidAccessToken`: the `{accountId, token, projectId}`
value (as an id–handle pair) and the store after the call. -/
structure AnyTokenOut where
  result : Option (String × TokenHandle)
  store : Store
  deriving Repr, DecidableEq

/-- The account loop of `getAnyValidAccessToken`. -/
def getAnyGo (now : Int) (nowIso : String) (refresh : String → RefreshResult) :
    List String → Store → AnyTokenOut
  | [], st => { result := none, store := st }
  | accountId :: rest, st =>
      let out := getValidAccessToken st accountId now nowIso refresh
      match out.result with
      | some r => { result := some (accountId, r), store := out.store }
      | none => getAnyGo now nowIso refresh rest out.store

/-- `getAnyValidAccessToken` of `token-manager.ts` (lines 323–341): tries the
listed accounts in enumeration order, returning the first usable token. -/
def getAnyValidAccessToken (st : Store) (now : Int) (nowIso : String)
    (refresh : String → RefreshResult) : AnyTokenOut :=
  getAnyGo now nowIso refresh (listAntigravityAccounts st) st

/-- `getValidAccessToken` together with its (absent) effect on the external
snapshot: the body of `getValidAccessToken` (lines 270–317) contains no
`syncToOpenCodePlugin` call, so the snapshot file is left exactly as it
was. -/
def getValidAccessTokenSnap (st : Store) (snap : Option OpenCodeStorage)
    (accountId : String) (now : Int) (nowIso : String)
    (refresh : String → RefreshResult) : GetTokenOut × Option OpenCodeStorage :=
  (getValidAccessToken st accountId now nowIso refresh, snap)

/-- Specification-side description of the rotation policy (from the spec, for
comparison with `getAnyValidAccessToken`): the first listed account for which
`getValidAccessToken` succeeds against the original store, with its id. -/
def firstSuccessSpec (st : Store) (now : Int) (nowIso : String)
    (refresh : String → RefreshResult) : List String → Option (String × TokenHandle)
  | [] => none
  | accountId :: rest =>
      match (getValidAccessToken st accountId now nowIso refresh).result with
      | some r => some (accountId, r)
      | none => firstSuccessSpec st now nowIso refresh rest

/-! ### Base64 (Node `Buffer` `'base64'` / `'base64url'` encodings) -/

/-- The standard base64 alphabet, in value order. -/
def base64StdAlphabet : List Char :=
  "ABCDEFGHIJKLMNOPQRSTUVWXYZabcdefghijklmnopqrstuvwxyz0123456789+/".data

/-- The character for a six-bit value in the standard alphabet. -/
def sextetChar (v : Nat) : Char := base64StdAlphabet.getD v 'A'

/-- The six-bit value of a standard-alphabet character, `none` for any other
character (Node's base64 decoder skips such characters, `'='` included). -/
def sextetOf (c : Char) : Option Nat := base64StdAlphabet.findIdx? (· = c)

/-- Base64 data characters (no padding) of a byte list. -/
def base64EncodeNoPad : List Nat → List Char
  | [] => []
  | [b1] => [sextetChar (b1 / 4), sextetChar (b1 % 4 * 16)]
  | [b1, b2] =>
      [sextetChar (b1 / 4), sextetChar (b1 % 4 * 16 + b2 / 16),
       sextetChar (b2 % 16 * 4)]
  | b1 :: b2 :: b3 :: rest =>
      sextetChar (b1 / 4) :: sextetChar (b1 % 4 * 16 + b2 / 16) ::
      sextetChar (b2 % 16 * 4 + b3 / 64) :: sextetChar (b3 % 64) ::
      base64EncodeNoPad rest

/-- The `'='` padding appended by `Buffer.toString('base64')`. -/
def base64PadChars (nbytes : Nat) : List Char :=
  if nbytes % 3 = 1 then ['=', '=']
  else if nbytes % 3 = 2 then ['=']
  else []

/-- `Buffer.toString('base64')`: standard alphabet, padded. -/
def base64EncodePadded (bs : List Nat) : List Char :=
  base64EncodeNoPad bs ++ base64PadChars bs.length

/-- The per-character substitution `+ → -`, `/ → _` applied by the source
(directly, or via `Buffer.toString('base64url')`). -/
def toUrlSafe (c : Char) : Char :=
  if c = '+' then '-' else if c = '/' then '_' else c

/-- `Buffer.toString('base64url')`: URL-safe alphabet, no padding. -/
def base64UrlEncode (bs : List Nat) : List Char :=
  (base64EncodeNoPad bs).map toUrlSafe

/-- Reassemble bytes from six-bit values (trailing groups of two / three
sextets carry one / two bytes; a lone trailing sextet carries none). -/
def base64DecodeSextets : List Nat → List Nat
  | s1 :: s2 :: s3 :: s4 :: rest =>
      (s1 * 4 + s2 / 16) :: (s2 % 16 * 16 + s3 / 4) :: (s3 % 4 * 64 + s4) ::
      base64DecodeSextets rest
  | [s1, s2] => [s1 * 4 + s2 / 16]
  | [s1, s2, s3] => [s1 * 4 + s2 / 16, s2 % 16 * 16 + s3 / 4]
  | _ => []

/-- `Buffer.from(s, 'base64')`: decode, skipping `'='` and any character
outside the alphabet, as Node does. -/
def base64Decode (chars : List Char) : List Nat :=
  base64DecodeSextets (chars.filterMap sextetOf)

/-! ### UTF-8 (Node `Buffer.from(s, 'utf8')` / `buf.toString('utf8')`) -/

/-- UTF-8 bytes of one scalar value. -/
def utf8EncodeChar (c : Char) : List Nat :=
  let n := c.toNat
  if n < 128 then [n]
  else if n < 2048 then [192 + n / 64, 128 + n % 64]
  else if n < 65536 then [224 + n / 4096, 128 + n / 64 % 64, 128 + n % 64]
  else [240 + n / 262144, 128 + n / 4096 % 64, 128 + n / 64 % 64, 128 + n % 64]

/-- `Buffer.from(s, 'utf8')` on a list of scalar values. -/
def utf8Encode (s : List Char) : List Nat := (s.map utf8EncodeChar).flatten

/-- A scalar value as a `Char`, `none` when out of range (surrogates /
beyond U+10FFFF). -/
def decodeScalar (n : Nat) : Option Char :=
  if h : n.isValidChar then some (Char.ofNatAux n h) else none

/-- Decode one UTF-8 sequence from the head of a byte list, rejecting stray
continuations, truncated sequences, overlong forms and invalid scalars. -/
def utf8DecodeChar : List Nat → Option (Char × List Nat)
  | [] => none
  | b :: rest =>
      if b < 128 then
        match decodeScalar b with
        | some c => some (c, rest)
        | none => none
      else if b < 192 then none
      else if b < 224 then
        match rest with
        | b2 :: rest2 =>
            if 128 ≤ b2 ∧ b2 < 192 ∧ 128 ≤ (b - 192) * 64 + (b2 - 128) then
              match decodeScalar ((b - 192) * 64 + (b2 - 128)) with
              | some c => some (c, rest2)
              | none => none
            else none
        | [] => none
      else if b < 240 then
        match rest with
        | b2 :: b3 :: rest2 =>
            if 128 ≤ b2 ∧ b2 < 192 ∧ 128 ≤ b3 ∧ b3 < 192 ∧
               2048 ≤ (b - 224) * 4096 + (b2 - 128) * 64 + (b3 - 128) then
              match decodeScalar ((b - 224) * 4096 + (b2 - 128) * 64 + (b3 - 128)) with
              | some c => some (c, rest2)
              | none => none
            else none
        | _ => none
      else if b < 248 then
        match rest with
        | b2 :: b3 :: b4 :: rest2 =>
            if 128 ≤ b2 ∧ b2 < 192 ∧ 128 ≤ b3 ∧ b3 < 192 ∧ 128 ≤ b4 ∧ b4 < 192 ∧
               65536 ≤ (b - 240) * 262144 + (b2 - 128) * 4096 +
                        (b3 - 128) * 64 + (b4 - 128) then
              match decodeScalar ((b - 240) * 262144 + (b2 - 128) * 4096 +
                                  (b3 - 128) * 64 + (b4 - 128)) with
              | some c => some (c, rest2)
              | none => none
            else none
        | _ => none
      else none

/-- Character loop of the UTF-8 decoder; the fuel only bounds the number of
decoded characters and is instantiated with the byte count (each character
consumes at least one byte). -/
def utf8DecodeGo : Nat → List Nat → Option (List Char)
  | _, [] => some []
  | 0, _ :: _ => none
  | fuel + 1, b :: rest =>
      match utf8DecodeChar (b :: rest) with
      | some (c, rem) =>
          match utf8DecodeGo fuel rem with
          | some cs => some (c :: cs)
          | none => none
      | none => none

/-- Strict UTF-8 decoding.  (Node's `toString('utf8')` instead substitutes
U+FFFD on invalid input; the two agree on valid UTF-8, which is the only
domain the source exercises.) -/
def utf8Decode (l : List Nat) : Option (List Char) :=
  utf8DecodeGo l.length l

/-! ### JSON (`JSON.stringify` escaping and a `JSON.parse` model)

Numbers are kept in textual form (`Json.num` stores the numeral span); the
source never consumes a JSON number through this path. -/

/-- JSON values as produced by `JSON.parse`. -/
inductive Json where
  | null
  | bool (b : Bool)
  | num (raw : String)
  | str (s : String)
  | arr (elems : List Json)
  | obj (fields : List (String × Json))

/-- Value of a hexadecimal digit. -/
def hexVal (c : Char) : Option Nat :=
  if '0' ≤ c ∧ c ≤ '9' then some (c.toNat - 48)
  else if 'a' ≤ c ∧ c ≤ 'f' then some (c.toNat - 87)
  else if 'A' ≤ c ∧ c ≤ 'F' then some (c.toNat - 55)
  else none

/-- Lowercase hexadecimal digit for a value below 16. -/
def hexDigit (n : Nat) : Char :=
  "0123456789abcdef".data.getD n '0'

/-- `JSON.stringify` escaping of one character (`QuoteJSONString`):
quote, backslash, the short control escapes, `\u00xx` for the remaining
control characters, everything else verbatim. -/
def escapeJsonChar (c : Char) : List Char :=
  if c = '"' then ['\\', '"']
  else if c = '\\' then ['\\', '\\']
  else if c = '\x08' then ['\\', 'b']
  else if c = '\x0c' then ['\\', 'f']
  else if c = '\n' then ['\\', 'n']
  else if c = '\r' then ['\\', 'r']
  else if c = '\t' then ['\\', 't']
  else if c.toNat < 32 then
    ['\\', 'u', '0', '0', hexDigit (c.toNat / 16), hexDigit (c.toNat % 16)]
  else [c]

/-- Escaped body of a `JSON.stringify` string, including the closing
quote. -/
def quoteJsonBody : List Char → List Char
  | [] => ['"']
  | c :: cs => escapeJsonChar c ++ quoteJsonBody cs

/-- `JSON.stringify` of a string: quoted and escaped. -/
def quoteJsonString (s : List Char) : List Char :=
  '"' :: quoteJsonBody s

/-- JSON string-body parser: consumes up to and including the closing quote,
returning the unescaped content and the remaining input.  (`\uXXXX` escapes
in the surrogate range are rejected rather than combined into UTF-16 pairs;
`JSON.stringify` output never contains them.) -/
def parseJsonStringBody : List Char → Option (List Char × List Char)
  | [] => none
  | c :: rest =>
      if c = '"' then some ([], rest)
      else if c = '\\' then
        match rest with
        | e :: rest2 =>
            if e = 'u' then
              match rest2 with
              | h1 :: h2 :: h3 :: h4 :: rest3 =>
                  match hexVal h1, hexVal h2, hexVal h3, hexVal h4 with
                  | some v1, some v2, some v3, some v4 =>
                      match decodeScalar (v1 * 4096 + v2 * 256 + v3 * 16 + v4),
                            parseJsonStringBody rest3 with
                      | some c2, some (cs, rem) => some (c2 :: cs, rem)
                      | _, _ => none
                  | _, _, _, _ => none
              | _ => none
            else
              let unescaped : Option Char :=
                if e = '"' then some '"'
                else if e = '\\' then some '\\'
                else if e = '/' then some '/'
                else if e = 'b' then some '\x08'
                else if e = 'f' then some '\x0c'
                else if e = 'n' then some '\n'
                else if e = 'r' then some '\r'
                else if e = 't' then some '\t'
                else none
              match unescaped, parseJsonStringBody rest2 with
              | some c2, some (cs, rem) => some (c2 :: cs, rem)
              | _, _ => none
        | [] => none
      else if c.toNat < 32 then none
      else
        match parseJsonStringBody rest with
        | some (cs, rem) => some (c :: cs, rem)
        | none => none

/-- Skip JSON whitespace. -/
def skipWs : List Char → List Char
  | [] => []
  | c :: rest =>
      if c = ' ' ∨ c = '\t' ∨ c = '\n' ∨ c = '\r' then skipWs rest else c :: rest

/-- Characters that may occur in a JSON numeral span. -/
def isNumChar (c : Char) : Bool :=
  c.isDigit || c = '-' || c = '+' || c = '.' || c = 'e' || c = 'E'

mutual

/-- Fuel-indexed JSON value parser (the fuel only bounds nesting; it is
instantiated large enough to be irrelevant on any input). -/
def parseJsonVal : Nat → List Char → Option (Json × List Char)
  | 0, _ => none
  | fuel + 1, input =>
      match skipWs input with
      | [] => none
      | c :: rest =>
          if c = '"' then
            match parseJsonStringBody rest with
            | some (cs, rem) => some (.str (String.mk cs), rem)
            | none => none
          else if c = '\x7b' then
            match skipWs rest with
            | d :: rest2 =>
                if d = '\x7d' then some (.obj [], rest2)
                else
                  match parseJsonMembers fuel (d :: rest2) with
                  | some (fs, rem) => some (.obj fs, rem)
                  | none => none
            | [] => none
          else if c = '[' then
            match skipWs rest with
            | d :: rest2 =>
                if d = ']' then some (.arr [], rest2)
                else
                  match parseJsonElems fuel (d :: rest2) with
                  | some (es, rem) => some (.arr es, rem)
                  | none => none
            | [] => none
          else if c = 't' then
            match rest with
            | 'r' :: 'u' :: 'e' :: rem => some (.bool true, rem)
            | _ => none
          else if c = 'f' then
            match rest with
            | 'a' :: 'l' :: 's' :: 'e' :: rem => some (.bool false, rem)
            | _ => none
          else if c = 'n' then
            match rest with
            | 'u' :: 'l' :: 'l' :: rem => some (.null, rem)
            | _ => none
          else if isNumChar c then
            let span := (c :: rest).takeWhile isNumChar
            some (.num (String.mk span), (c :: rest).dropWhile isNumChar)
          else none

/-- Object-member list parser (`"key" : value (, …)* }`). -/
def parseJsonMembers : Nat → List Char → Option (List (String × Json) × List Char)
  | 0, _ => none
  | fuel + 1, input =>
      match skipWs input with
      | q :: rest =>
          if q = '"' then
            match parseJsonStringBody rest with
            | some (key, rest2) =>
                match skipWs rest2 with
                | d :: rest3 =>
                    if d = ':' then
                      match parseJsonVal fuel rest3 with
                      | some (v, rest4) =>
                          match skipWs rest4 with
                          | e :: rest5 =>
                              if e = ',' then
                                match parseJsonMembers fuel rest5 with
                                | some (fs, rem) =>
                                    some ((String.mk key, v) :: fs, rem)
                                | none => none
                              else if e = '\x7d' then
                                some ([(String.mk key, v)], rest5)
                              else none
                          | [] => none
                      | none => none
                    else none
                | [] => none
            | none => none
          else none
      | [] => none

/-- Array-element list parser (`value (, …)* ]`). -/
def parseJsonElems : Nat → List Char → Option (List Json × List Char)
  | 0, _ => none
  | fuel + 1, input =>
      match parseJsonVal fuel input with
      | some (v, rest) =>
          match skipWs rest with
          | d :: rest2 =>
              if d = ',' then
                match parseJsonElems fuel rest2 with
                | some (es, rem) => some (v :: es, rem)
                | none => none
              else if d = ']' then some ([v], rest2)
              else none
          | [] => none
      | none => none

end

/-- `JSON.parse`: parse one value and require only whitespace after it. -/
def jsonParse (s : String) : Option Json :=
  match parseJsonVal (s.data.length + 4) s.data with
  | some (j, rest) => if skipWs rest = [] then some j else none
  | none => none

/-- Field access on a parsed JSON object (`parsed.key`); with duplicate keys
`JSON.parse` keeps the last occurrence. -/
def jsonField (j : Json) (key : String) : Option Json :=
  match j with
  | .obj fields => lookupLast fields key
  | _ => none
where
  lookupLast : List (String × Json) → String → Option Json
    | [], _ => none
    | (k, v) :: rest, key =>
        match lookupLast rest key with
        | some r => some r
        | none => if k = key then some v else none

/-! ### Flow-state codec (oauth.ts `encodeState` / `decodeState`) -/

/-- The `AuthState` carried through the OAuth `state` parameter. -/
structure AuthState where
  verifier : String
  projectId : String
  deriving Repr, DecidableEq

/-- `JSON.stringify({verifier, projectId})`: insertion order of the object
literal built in `encodeState` / `buildAuthorizationUrl`. -/
def jsonStringifyAuthState (a : AuthState) : List Char :=
  '\x7b' :: (quoteJsonString "verifier".data ++ ':' :: quoteJsonString a.verifier.data
    ++ ',' :: quoteJsonString "projectId".data ++ ':' :: quoteJsonString a.projectId.data
    ++ ['\x7d'])

/-- `encodeState` of `oauth.ts` (lines 221–223):
`Buffer.from(JSON.stringify(state), 'utf8').toString('base64url')`. -/
def encodeState (state : AuthState) : String :=
  String.mk (base64UrlEncode (utf8Encode (jsonStringifyAuthState state)))

/-- `decodeState` of `oauth.ts` (lines 228–242): normalize the URL-safe
alphabet, pad, base64-decode, parse JSON, require a string `verifier`,
default a non-string `projectId` to `""`.  Thrown errors are modelled as
`Except.error` with the thrown message (`JSON.parse` and UTF-8 failures
carry messages the source does not inspect). -/
def decodeState (state : String) : Except String AuthState :=
  let normalized := state.data.map fun c =>
    if c = '-' then '+' else if c = '_' then '/' else c
  let padded :=
    normalized ++ List.replicate ((4 - normalized.length % 4) % 4) '='
  let bytes := base64Decode padded
  match utf8Decode bytes with
  | none => .error "Malformed state"
  | some chars =>
      match jsonParse (String.mk chars) with
      | none => .error "Malformed state"
      | some parsed =>
          match jsonField parsed "verifier" with
          | some (.str verifier) =>
              .ok { verifier := verifier,
                    projectId :=
                      match jsonField parsed "projectId" with
                      | some (.str p) => p
                      | _ => "" }
          | _ => .error "Missing PKCE verifier in state"

/-! ### SHA-256 (Node `crypto.createHash('sha256')`), over byte lists -/

/-- Truncation to a 32-bit word. -/
def w32 (n : Nat) : Nat := n % 4294967296

/-- 32-bit right rotation (arguments below 2^32). -/
def rotr (x b : Nat) : Nat := w32 (x / 2 ^ b + x % 2 ^ b * 2 ^ (32 - b))

/-- The SHA-256 round constants. -/
def sha256K : List Nat :=
  [1116352408, 1899447441, 3049323471, 3921009573, 961987163,
   1508970993, 2453635748, 2870763221, 3624381080, 310598401,
   607225278, 1426881987, 1925078388, 2162078206, 2614888103,
   3248222580, 3835390401, 4022224774, 264347078, 604807628,
   770255983, 1249150122, 1555081692, 1996064986, 2554220882,
   2821834349, 2952996808, 3210313671, 3336571891, 3584528711,
   113926993, 338241895, 666307205, 773529912, 1294757372,
   1396182291, 1695183700, 1986661051, 2177026350, 2456956037,
   2730485921, 2820302411, 3259730800, 3345764771, 3516065817,
   3600352804, 4094571909, 275423344, 430227734, 506948616,
   659060556, 883997877, 958139571, 1322822218, 1537002063,
   1747873779, 1955562222, 2024104815, 2227730452, 2361852424,
   2428436474, 2756734187, 3204031479, 3329325298]

/-- The SHA-256 initial hash value. -/
def sha256H0 : List Nat :=
  [1779033703, 3144134277, 1013904242, 2773480762,
   1359893119, 2600822924, 528734635, 1541459225]

/-- Big-endian 32-bit words from bytes. -/
def bytesToWords : List Nat → List Nat
  | b1 :: b2 :: b3 :: b4 :: rest =>
      (b1 * 16777216 + b2 * 65536 + b3 * 256 + b4) :: bytesToWords rest
  | _ => []

/-- Big-endian bytes of a 32-bit word. -/
def wordToBytes (w : Nat) : List Nat :=
  [w / 16777216 % 256, w / 65536 % 256, w / 256 % 256, w % 256]

/-- One message-schedule extension step (appends the next `w[i]`). -/
def scheduleStep (ws : List Nat) : List Nat :=
  let i := ws.length
  let s0 := fun x => rotr x 7 ^^^ rotr x 18 ^^^ x / 2 ^ 3
  let s1 := fun x => rotr x 17 ^^^ rotr x 19 ^^^ x / 2 ^ 10
  ws ++ [w32 (s1 (ws.getD (i - 2) 0) + ws.getD (i - 7) 0 +
              s0 (ws.getD (i - 15) 0) + ws.getD (i - 16) 0)]

/-- One SHA-256 compression round on the `[a,b,c,d,e,f,g,h]` state. -/
def compressStep (st : List Nat) (kw : Nat × Nat) : List Nat :=
  match st with
  | [a, b, c, d, e, f, g, h] =>
      let bigS1 := rotr e 6 ^^^ rotr e 11 ^^^ rotr e 25
      let ch := (e &&& f) ^^^ ((e ^^^ 4294967295) &&& g)
      let t1 := w32 (h + bigS1 + ch + kw.1 + kw.2)
      let bigS0 := rotr a 2 ^^^ rotr a 13 ^^^ rotr a 22
      let maj := (a &&& b) ^^^ (a &&& c) ^^^ (b &&& c)
      let t2 := w32 (bigS0 + maj)
      [w32 (t1 + t2), a, b, c, w32 (d + t1), e, f, g]
  | other => other

/-- Compress one 64-byte chunk into the running hash. -/
def compressChunk (h : List Nat) (chunk : List Nat) : List Nat :=
  let ws := scheduleStep^[48] (bytesToWords chunk)
  let st := (sha256K.zip ws).foldl compressStep h
  (h.zip st).map fun p => w32 (p.1 + p.2)

/-- Chunking loop; the fuel only bounds the number of chunks and is
instantiated with the byte count (each chunk consumes at least one byte). -/
def chunks64Go : Nat → List Nat → List (List Nat)
  | _, [] => []
  | 0, _ :: _ => []
  | fuel + 1, l@(_ :: _) => l.take 64 :: chunks64Go fuel (l.drop 64)

/-- Split into 64-byte chunks. -/
def chunks64 (l : List Nat) : List (List Nat) := chunks64Go l.length l

/-- Big-endian 64-bit length field. -/
def lenBytes (n : Nat) : List Nat :=
  [n / 2 ^ 56 % 256, n / 2 ^ 48 % 256, n / 2 ^ 40 % 256, n / 2 ^ 32 % 256,
   n / 2 ^ 24 % 256, n / 2 ^ 16 % 256, n / 2 ^ 8 % 256, n % 256]

/-- SHA-256 of a byte list. -/
def sha256 (msg : List Nat) : List Nat :=
  let L := msg.length
  let padded := msg ++ 128 :: (List.replicate ((119 - L % 64) % 64) 0 ++ lenBytes (L * 8))
  (((chunks64 padded).foldl compressChunk sha256H0).map wordToBytes).flatten

/-! ### PKCE generation (oauth.ts `generateRandomString` / `generatePKCE`) -/

/-- The `PkcePair` of `oauth.ts`. -/
structure PkcePair where
  challenge : String
  verifier : String
  deriving Repr, DecidableEq

/-- `generateRandomString` of `oauth.ts` (lines 188–196), as a function of the
`crypto.randomBytes(length)` output: standard base64, `+ → -`, `/ → _`,
strip `'='`, then `slice(0, length)`. -/
def generateRandomString (length : Nat) (bytes : List Nat) : List Char :=
  ((((base64EncodePadded bytes).map toUrlSafe).filter (· ≠ '=')).take length)

/-- `generatePKCE` of `oauth.ts` (lines 201–216), as a function of the 64
random bytes drawn: the verifier is `generateRandomString 64`, the challenge
is the stripped URL-safe base64 of the SHA-256 of the verifier (hashed as
UTF-8, which is the ASCII bytes of the verifier). -/
def generatePKCE (randomBytes : List Nat) : PkcePair :=
  let verifier := generateRandomString 64 randomBytes
  let hash := sha256 (utf8Encode verifier)
  let challenge := (((base64EncodePadded hash).map toUrlSafe).filter (· ≠ '='))
  { verifier := String.mk verifier, challenge := String.mk challenge }

/-- Membership in the URL-safe base64 alphabet (`A–Z a–z 0–9 - _`), the
alphabet the spec requires of PKCE verifiers. -/
def isUrlSafeB64Char (c : Char) : Bool :=
  ('A' ≤ c && c ≤ 'Z') || ('a' ≤ c && c ≤ 'z') || ('0' ≤ c && c ≤ '9') ||
    c = '-' || c = '_'

/-! ### Code-for-token exchange (oauth.ts `exchangeCodeForTokens`) -/

/-- The `GoogleUserInfo` shape of `oauth.ts`. -/
structure GoogleUserInfo where
  email : Option String
  name : Option String
  picture : Option String
  deriving Repr, DecidableEq

/-- Outcome of the best-effort user-info fetch inside
`exchangeCodeForTokens`: a completed OK response with its parsed body, a
completed non-OK response (its body is never read — user info is simply
omitted), or a *thrown* fetch (network failure or the 10-second abort),
which propagates to the surrounding `catch` and fails the whole exchange
with the thrown message — before the refresh-token check is reached. -/
inductive UserInfoResp where
  | ok (body : GoogleUserInfo)
  | notOk
  | thrown (msg : String)
  deriving Repr, DecidableEq

/-- `exchangeCodeForTokens` of `oauth.ts` (lines 366–434), as a function of
the token-endpoint response, the user-info fetch outcome and the
`fetchProjectId` discovery result (the `code` argument only feeds the
outbound request).  A `decodeState` throw, like a thrown user-info fetch,
is caught by the surrounding `catch` and surfaces as a failure with the
thrown message. -/
def exchangeCodeForTokens (code state : String) (startTime : Int)
    (tokenResp : HttpResp GoogleTokenResponse)
    (userInfoResp : UserInfoResp)
    (discoveredProjectId : String) : TokenExchangeResult :=
  match decodeState state with
  | .error e => .failed e
  | .ok authState =>
      match tokenResp with
      | .notOk errorText => .failed errorText
      | .ok tokenPayload =>
          match userInfoResp with
          | .thrown msg => .failed msg
          | userInfoOutcome =>
              let userInfo : GoogleUserInfo :=
                match userInfoOutcome with
                | .ok u => u
                | _ => { email := none, name := none, picture := none }
              -- `const refreshToken = tokenPayload.refresh_token; if (!refreshToken)`
              if ¬ jsTruthy tokenPayload.refresh_token then
                .failed "Missing refresh token in response"
              else
                -- `let effectiveProjectId = projectId; if (!effectiveProjectId) …`
                let effectiveProjectId :=
                  if authState.projectId = "" then discoveredProjectId
                  else authState.projectId
                .success
                  { accessToken := tokenPayload.access_token,
                    refreshToken := tokenPayload.refresh_token.getD "",
                    expiresAt :=
                      calculateTokenExpiry startTime tokenPayload.expires_in,
                    email := userInfo.email,
                    projectId := effectiveProjectId }

/-! ### Concrete sample data for closed instances -/

/-- Concrete stand-in for `new Date(s).getTime()` in closed instances: any
function `String → Int` serves, this one reads off the string's length. -/
def sampleParseMs (s : String) : Int := s.length

/-- Concrete sample token record (long-lived). -/
def sampleToken : AntigravityStoredTokens :=
  { accessToken := "A", refreshToken := "R", expiresAt := 1000000000,
    projectId := "p", email := none, createdAt := "c", lastUsedAt := some "u" }

/-- Concrete sample one-account store. -/
def sampleStore : Store := [("a", sampleToken)]

/-! ## Supporting lemmas -/

/-- Looking up an account right after upserting it yields the new record. -/
theorem getAntigravityTokens_store (st : Store) (accountId : String)
    (t : AntigravityStoredTokens) :
    getAntigravityTokens (storeAntigravityTokens st accountId t) accountId = some t := by
  induction st with
  | nil => simp [getAntigravityTokens, storeAntigravityTokens]
  | cons e rest ih =>
      by_cases h : e.1 = accountId
      · simp [getAntigravityTokens, storeAntigravityTokens, h]
      · simpa [getAntigravityTokens, storeAntigravityTokens, h] using ih

/-- An account with a stored record is among the listed accounts. -/
theorem mem_list_of_getAntigravityTokens (st : Store) (accountId : String)
    (t : AntigravityStoredTokens)
    (h : getAntigravityTokens st accountId = some t) :
    accountId ∈ listAntigravityAccounts st := by
  unfold getAntigravityTokens at h
  unfold listAntigravityAccounts
  obtain ⟨e, he, rfl⟩ := Option.map_eq_some'.mp h
  have hmem := List.mem_of_find?_eq_some he
  have hp := List.find?_some he
  simp only [decide_eq_true_eq] at hp
  rw [← hp]
  exact List.mem_map_of_mem _ hmem

/-- A failing `getValidAccessToken` call leaves the store untouched. -/
theorem getValidAccessToken_fail_frame (st : Store) (accountId : String)
    (now : Int) (nowIso : String) (refresh : String → RefreshResult)
    (h : (getValidAccessToken st accountId now nowIso refresh).result = none) :
    (getValidAccessToken st accountId now nowIso refresh).store = st := by
  unfold getValidAccessToken at h ⊢
  cases hg : getAntigravityTokens st accountId with
  | none => simp [hg]
  | some t =>
      simp only [hg] at h ⊢
      by_cases hexp : t.expiresAt - now ≤ TOKEN_REFRESH_BUFFER_MS
      · rw [if_pos hexp] at h ⊢
        cases hr : refresh t.refreshToken with
        | ok a e => rw [hr] at h; exact absurd h (by simp)
        | error msg => simp only [hr]
      · rw [if_neg hexp] at h
        exact absurd h (by simp)

/-! ## Claim theorems -/

/-- C1 counterexample: while a flow expecting state `"expected"` is pending,
a callback to `/oauth-callback` carrying `code=abc` and a present but
empty-valued `state` parameter (whose value therefore differs from the
expected state) is rejected as missing parameters — not with the
state-mismatch error the claim requires. -/
theorem handleRequest_empty_state_counterexample :
    handleRequest (some { state := "expected" })
        { path := "/oauth-callback", code := some "abc", state := some "",
          error := none } =
      { status := 400,
        outcome := some (.rejected "Missing code or state parameter"),
        pending := none } ∧
    (handleRequest (some { state := "expected" })
        { path := "/oauth-callback", code := some "abc", state := some "",
          error := none }).outcome ≠ some (.rejected "State mismatch") := by
  constructor
  · rfl
  · intro h
    simp [handleRequest, jsTruthy] at h

/-- C1 (amended): for every callback to `/oauth-callback` carrying no `error`
parameter and non-empty `code` and `state` values while a flow is pending,
if the state value differs from the pending flow's expected state the
handler answers 400, rejects the pending flow with the state-mismatch error,
and clears it — in particular the flow is never resolved with that request's
code. -/
theorem handleRequest_state_mismatch (p : PendingOAuth) (code state : String)
    (hc : code ≠ "") (hs : state ≠ "") (hmism : state ≠ p.state) :
    handleRequest (some p)
        { path := "/oauth-callback", code := some code, state := some state,
          error := none } =
      { status := 400, outcome := some (.rejected "State mismatch"),
        pending := none } := by
  simp [handleRequest, jsTruthy, hc, hs, Ne.symm hmism]

/-- Witness for the amended C1 at a concrete mismatching callback. -/
theorem handleRequest_state_mismatch_witness :
    handleRequest (some { state := "expected" })
        { path := "/oauth-callback", code := some "abc", state := some "other",
          error := none } =
      { status := 400, outcome := some (.rejected "State mismatch"),
        pending := none } :=
  handleRequest_state_mismatch { state := "expected" } "abc" "other"
    (by decide) (by decide) (by decide)

/-- C2: registering a flow while another is pending immediately rejects the
pending flow with the supersession error and installs the new flow, which a
matching callback (non-empty code, equal state) then resolves normally. -/
theorem waitForOAuthCallback_supersedes (p : PendingOAuth) (s code : String)
    (hc : code ≠ "") (hs : s ≠ "") :
    waitForOAuthCallback (some p) s =
      (some (.rejected "New OAuth flow started"), { state := s }) ∧
    handleRequest (some { state := s })
        { path := "/oauth-callback", code := some code, state := some s,
          error := none } =
      { status := 200, outcome := some (.resolved code s), pending := none } := by
  refine ⟨rfl, ?_⟩
  simp [handleRequest, jsTruthy, hc, hs]

/-- Witness for C2 at a concrete superseded flow and matching callback. -/
theorem waitForOAuthCallback_supersedes_witness :
    waitForOAuthCallback (some { state := "old" }) "new" =
      (some (.rejected "New OAuth flow started"), { state := "new" }) ∧
    handleRequest (some { state := "new" })
        { path := "/oauth-callback", code := some "abc", state := some "new",
          error := none } =
      { status := 200, outcome := some (.resolved "abc" "new"),
        pending := none } :=
  waitForOAuthCallback_supersedes { state := "old" } "new" "abc"
    (by decide) (by decide)

/-- C3: `getValidAccessToken` refreshes exactly when the record's remaining
lifetime `expiresAt - now` is at or below the 5-minute buffer: then exactly
one refresh call is made, a successful refresh's token is returned and a
failed refresh yields `none` (never the stale stored token); with more than
the buffer remaining, no refresh call occurs and the stored token is
returned, the stored record changing only in `lastUsedAt`. -/
theorem getValidAccessToken_refresh_policy (st : Store) (accountId : String)
    (now : Int) (nowIso : String) (refresh : String → RefreshResult)
    (t : AntigravityStoredTokens)
    (ht : getAntigravityTokens st accountId = some t) :
    (t.expiresAt - now ≤ TOKEN_REFRESH_BUFFER_MS →
      (getValidAccessToken st accountId now nowIso refresh).refreshCalls = 1 ∧
      (∀ a e, refresh t.refreshToken = .ok a e →
        (getValidAccessToken st accountId now nowIso refresh).result =
          some { token := a, projectId := t.projectId }) ∧
      (∀ msg, refresh t.refreshToken = .error msg →
        (getValidAccessToken st accountId now nowIso refresh).result = none)) ∧
    (TOKEN_REFRESH_BUFFER_MS < t.expiresAt - now →
      (getValidAccessToken st accountId now nowIso refresh).refreshCalls = 0 ∧
      (getValidAccessToken st accountId now nowIso refresh).result =
        some { token := t.accessToken, projectId := t.projectId } ∧
      (getValidAccessToken st accountId now nowIso refresh).store =
        storeAntigravityTokens st accountId { t with lastUsedAt := some nowIso }) := by
  unfold getValidAccessToken
  simp only [ht]
  constructor
  · intro hexp
    rw [if_pos hexp]
    refine ⟨?_, ?_, ?_⟩
    · cases hr : refresh t.refreshToken <;> simp [hr]
    · intro a e hr; simp [hr]
    · intro msg hr; simp [hr]
  · intro hexp
    rw [if_neg (by omega)]
    exact ⟨rfl, rfl, rfl⟩

/-- Witness for C3: a record with five minutes (exactly the buffer) left is
refreshed — one refresh call, refreshed token returned — and a record with
more than the buffer left is returned as stored with no refresh call. -/
theorem getValidAccessToken_refresh_policy_witness :
    ((getValidAccessToken
        [("a", { accessToken := "tokA", refreshToken := "refA",
                 expiresAt := 300000, projectId := "p", email := none,
                 createdAt := "c", lastUsedAt := none })]
        "a" 0 "iso" (fun _ => .ok "newTok" 900000)).refreshCalls = 1 ∧
      (getValidAccessToken
        [("a", { accessToken := "tokA", refreshToken := "refA",
                 expiresAt := 300000, projectId := "p", email := none,
                 createdAt := "c", lastUsedAt := none })]
        "a" 0 "iso" (fun _ => .ok "newTok" 900000)).result =
        some { token := "newTok", projectId := "p" }) ∧
    ((getValidAccessToken
        [("a", { accessToken := "tokA", refreshToken := "refA",
                 expiresAt := 300001, projectId := "p", email := none,
                 createdAt := "c", lastUsedAt := none })]
        "a" 0 "iso" (fun _ => .ok "newTok" 900000)).refreshCalls = 0 ∧
      (getValidAccessToken
        [("a", { accessToken := "tokA", refreshToken := "refA",
                 expiresAt := 300001, projectId := "p", email := none,
                 createdAt := "c", lastUsedAt := none })]
        "a" 0 "iso" (fun _ => .ok "newTok" 900000)).result =
        some { token := "tokA", projectId := "p" }) := by
  constructor
  · have h := getValidAccessToken_refresh_policy
      [("a", { accessToken := "tokA", refreshToken := "refA",
               expiresAt := 300000, projectId := "p", email := none,
               createdAt := "c", lastUsedAt := none })]
      "a" 0 "iso" (fun _ => .ok "newTok" 900000)
      { accessToken := "tokA", refreshToken := "refA", expiresAt := 300000,
        projectId := "p", email := none, createdAt := "c", lastUsedAt := none }
      rfl
    exact ⟨(h.1 (by decide)).1, (h.1 (by decide)).2.1 "newTok" 900000 rfl⟩
  · have h := getValidAccessToken_refresh_policy
      [("a", { accessToken := "tokA", refreshToken := "refA",
               expiresAt := 300001, projectId := "p", email := none,
               createdAt := "c", lastUsedAt := none })]
      "a" 0 "iso" (fun _ => .ok "newTok" 900000)
      { accessToken := "tokA", refreshToken := "refA", expiresAt := 300001,
        projectId := "p", email := none, createdAt := "c", lastUsedAt := none }
      rfl
    exact ⟨(h.2 (by decide)).1, (h.2 (by decide)).2.1⟩

/-- C10: when the refresh attempt inside `getValidAccessToken` fails, the
call returns `none` and the store is left exactly as it was — the account's
record is still present with all its fields unchanged and the account is
still listed, so a later call can retry with the same record. -/
theorem getValidAccessToken_refresh_failure_keeps_record (st : Store)
    (accountId : String) (now : Int) (nowIso : String)
    (refresh : String → RefreshResult) (t : AntigravityStoredTokens)
    (msg : String)
    (ht : getAntigravityTokens st accountId = some t)
    (hexp : t.expiresAt - now ≤ TOKEN_REFRESH_BUFFER_MS)
    (hr : refresh t.refreshToken = .error msg) :
    (getValidAccessToken st accountId now nowIso refresh).store = st ∧
    (getValidAccessToken st accountId now nowIso refresh).result = none ∧
    getAntigravityTokens
      (getValidAccessToken st accountId now nowIso refresh).store accountId =
      some t ∧
    accountId ∈ listAntigravityAccounts
      (getValidAccessToken st accountId now nowIso refresh).store := by
  have hst : (getValidAccessToken st accountId now nowIso refresh).store = st := by
    unfold getValidAccessToken
    simp only [ht]
    rw [if_pos hexp]
    simp only [hr]
  have hres : (getValidAccessToken st accountId now nowIso refresh).result = none := by
    unfold getValidAccessToken
    simp only [ht]
    rw [if_pos hexp]
    simp only [hr]
  refine ⟨hst, hres, ?_, ?_⟩
  · rw [hst]; exact ht
  · rw [hst]; exact mem_list_of_getAntigravityTokens st accountId t ht

/-- Witness for C10 at a concrete expired record whose refresh fails. -/
theorem getValidAccessToken_refresh_failure_keeps_record_witness :
    (getValidAccessToken
        [("a", { accessToken := "tokA", refreshToken := "refA",
                 expiresAt := 0, projectId := "p", email := none,
                 createdAt := "c", lastUsedAt := none })]
        "a" 1000000 "iso" (fun _ => .error "boom")).store =
      [("a", { accessToken := "tokA", refreshToken := "refA",
               expiresAt := 0, projectId := "p", email := none,
               createdAt := "c", lastUsedAt := none })] ∧
    (getValidAccessToken
        [("a", { accessToken := "tokA", refreshToken := "refA",
                 expiresAt := 0, projectId := "p", email := none,
                 createdAt := "c", lastUsedAt := none })]
        "a" 1000000 "iso" (fun _ => .error "boom")).result = none := by
  have h := getValidAccessToken_refresh_failure_keeps_record
    [("a", { accessToken := "tokA", refreshToken := "refA",
             expiresAt := 0, projectId := "p", email := none,
             createdAt := "c", lastUsedAt := none })]
    "a" 1000000 "iso" (fun _ => .error "boom")
    { accessToken := "tokA", refreshToken := "refA", expiresAt := 0,
      projectId := "p", email := none, createdAt := "c", lastUsedAt := none }
    "boom" rfl (by decide) rfl
  exact ⟨h.1, h.2.1⟩

/-- The account loop of `getAnyValidAccessToken` returns the first listed
account whose `getValidAccessToken` succeeds against the original store
(failures leave the store unchanged, so later accounts are evaluated against
the same store). -/
theorem getAnyGo_eq_firstSuccess (now : Int) (nowIso : String)
    (refresh : String → RefreshResult) (ids : List String) (st : Store) :
    (getAnyGo now nowIso refresh ids st).result =
      firstSuccessSpec st now nowIso refresh ids := by
  induction ids with
  | nil => rfl
  | cons accountId rest ih =>
      unfold getAnyGo firstSuccessSpec
      cases hres : (getValidAccessToken st accountId now nowIso refresh).result with
      | some r => simp only [hres]
      | none =>
          simp only [hres]
          rw [getValidAccessToken_fail_frame st accountId now nowIso refresh hres]
          exact ih

/-- A run of `firstSuccessSpec` is `none` exactly when every listed account
fails. -/
theorem firstSuccessSpec_eq_none_iff (st : Store) (now : Int) (nowIso : String)
    (refresh : String → RefreshResult) (ids : List String) :
    firstSuccessSpec st now nowIso refresh ids = none ↔
    ∀ accountId ∈ ids,
      (getValidAccessToken st accountId now nowIso refresh).result = none := by
  induction ids with
  | nil => simp [firstSuccessSpec]
  | cons accountId rest ih =>
      unfold firstSuccessSpec
      cases hres : (getValidAccessToken st accountId now nowIso refresh).result with
      | some r => simp [hres]
      | none => simp [hres, ih]

/-- C9: `getAnyValidAccessToken` returns exactly the first account in
store-enumeration order for which `getValidAccessToken` succeeds, paired
with that account's id (earlier accounts' failures are not propagated), and
its result is absent precisely when `getValidAccessToken` fails for every
stored account. -/
theorem getAnyValidAccessToken_rotation (st : Store) (now : Int)
    (nowIso : String) (refresh : String → RefreshResult) :
    (getAnyValidAccessToken st now nowIso refresh).result =
      firstSuccessSpec st now nowIso refresh (listAntigravityAccounts st) ∧
    ((getAnyValidAccessToken st now nowIso refresh).result = none ↔
      ∀ accountId ∈ listAntigravityAccounts st,
        (getValidAccessToken st accountId now nowIso refresh).result = none) := by
  have h := getAnyGo_eq_firstSuccess now nowIso refresh
    (listAntigravityAccounts st) st
  exact ⟨h, by
    rw [getAnyValidAccessToken, h]
    exact firstSuccessSpec_eq_none_iff st now nowIso refresh
      (listAntigravityAccounts st)⟩

/-- C6 counterexample: the provider's refresh response carries a new refresh
token `"NEW"`, yet after the successful refresh the stored record still
holds the old refresh token `"OLD"` — `refreshAccessToken`'s result type
drops any `refresh_token` in the response, so it is never stored. -/
theorem refresh_token_rotation_counterexample :
    ({ access_token := "A2", expires_in := 3600, refresh_token := some "NEW",
       token_type := "Bearer" } : GoogleTokenResponse).refresh_token =
      some "NEW" ∧
    (getAntigravityTokens
      (getValidAccessToken
        [("a", { accessToken := "A1", refreshToken := "OLD", expiresAt := 0,
                 projectId := "p", email := none, createdAt := "c",
                 lastUsedAt := none })]
        "a" 0 "iso"
        (fun _ => refreshAccessToken 0
          (.ok { access_token := "A2", expires_in := 3600,
                 refresh_token := some "NEW", token_type := "Bearer" }))).store
      "a").map (fun t => t.refreshToken) = some "OLD" ∧
    ("OLD" : String) ≠ "NEW" := by decide

/-- C6 (amended): after a successful refresh the stored record's refresh
token always equals the previously stored one — any refresh token in the
provider's refresh response is discarded by `refreshAccessToken`, whose
result carries only the access token and expiry, and is therefore never
stored. -/
theorem refresh_keeps_old_refresh_token (st : Store) (accountId : String)
    (now : Int) (nowIso : String) (startTime : Int)
    (payload : GoogleTokenResponse) (t : AntigravityStoredTokens)
    (ht : getAntigravityTokens st accountId = some t)
    (hexp : t.expiresAt - now ≤ TOKEN_REFRESH_BUFFER_MS) :
    getAntigravityTokens
      (getValidAccessToken st accountId now nowIso
        (fun _ => refreshAccessToken startTime (.ok payload))).store accountId =
      some { t with accessToken := payload.access_token,
                    expiresAt := calculateTokenExpiry startTime payload.expires_in,
                    lastUsedAt := some nowIso } ∧
    (getAntigravityTokens
      (getValidAccessToken st accountId now nowIso
        (fun _ => refreshAccessToken startTime (.ok payload))).store
      accountId).map (fun r => r.refreshToken) = some t.refreshToken := by
  have hstore : (getValidAccessToken st accountId now nowIso
      (fun _ => refreshAccessToken startTime (.ok payload))).store =
      storeAntigravityTokens st accountId
        { t with accessToken := payload.access_token,
                 expiresAt := calculateTokenExpiry startTime payload.expires_in,
                 lastUsedAt := some nowIso } := by
    unfold getValidAccessToken
    simp only [ht]
    rw [if_pos hexp]
    simp only [refreshAccessToken]
  rw [hstore, getAntigravityTokens_store]
  exact ⟨rfl, rfl⟩

/-- Witness for the amended C6 at a concrete refresh whose response includes
a new refresh token. -/
theorem refresh_keeps_old_refresh_token_witness :
    getAntigravityTokens
      (getValidAccessToken
        [("a", { accessToken := "A1", refreshToken := "OLD", expiresAt := 0,
                 projectId := "p", email := none, createdAt := "c",
                 lastUsedAt := none })]
        "a" 0 "iso"
        (fun _ => refreshAccessToken 0
          (.ok { access_token := "A2", expires_in := 3600,
                 refresh_token := some "NEW", token_type := "Bearer" }))).store
      "a" =
      some { accessToken := "A2", refreshToken := "OLD",
             expiresAt := 3600000, projectId := "p", email := none,
             createdAt := "c", lastUsedAt := some "iso" } ∧
    (getAntigravityTokens
      (getValidAccessToken
        [("a", { accessToken := "A1", refreshToken := "OLD", expiresAt := 0,
                 projectId := "p", email := none, createdAt := "c",
                 lastUsedAt := none })]
        "a" 0 "iso"
        (fun _ => refreshAccessToken 0
          (.ok { access_token := "A2", expires_in := 3600,
                 refresh_token := some "NEW", token_type := "Bearer" }))).store
      "a").map (fun r => r.refreshToken) = some "OLD" :=
  refresh_keeps_old_refresh_token
    [("a", { accessToken := "A1", refreshToken := "OLD", expiresAt := 0,
             projectId := "p", email := none, createdAt := "c",
             lastUsedAt := none })]
    "a" 0 "iso" 0
    { access_token := "A2", expires_in := 3600, refresh_token := some "NEW",
      token_type := "Bearer" }
    { accessToken := "A1", refreshToken := "OLD", expiresAt := 0,
      projectId := "p", email := none, createdAt := "c", lastUsedAt := none }
    rfl (by decide)

/-- C5 counterexample: a `getValidAccessToken` call mutates the stored
record (`lastUsedAt`, here with a token far from expiry), yet the snapshot
file — consistent with the store beforehand — is left untouched and no
longer equals a full regeneration from the stored records:
`getValidAccessToken` contains no `syncToOpenCodePlugin` call. -/
theorem snapshot_not_regenerated_counterexample :
    (getValidAccessTokenSnap sampleStore
        (syncToOpenCodePlugin sampleParseMs sampleStore) "a" 0 "uu"
        (fun _ => .error "x")).1.store ≠ sampleStore ∧
    (getValidAccessTokenSnap sampleStore
        (syncToOpenCodePlugin sampleParseMs sampleStore) "a" 0 "uu"
        (fun _ => .error "x")).2 ≠
      syncToOpenCodePlugin sampleParseMs
        (getValidAccessTokenSnap sampleStore
          (syncToOpenCodePlugin sampleParseMs sampleStore) "a" 0 "uu"
          (fun _ => .error "x")).1.store := by decide

/-- C5 (amended): the snapshot is regenerated in full from the stored
records after the mutations performed by a successful `login`, a deleting
`logout`, and a deleting `logoutAll`; regeneration with zero stored records
yields `none` (the file is removed); but the token/`lastUsedAt` updates
inside `getValidAccessToken` leave the snapshot file untouched. -/
theorem snapshot_regeneration_policy (parseMs : String → Int) (st st' : Store)
    (snap : Option OpenCodeStorage) (serverStarted : Bool)
    (callback : CallbackResult)
    (exchange : String → String → TokenExchangeResult)
    (accountIdGen nowIso delId : String) (now : Int)
    (refresh : String → RefreshResult)
    (hlogin : (login parseMs st snap serverStarted callback exchange
      accountIdGen nowIso).1.success = true)
    (hdel : (logout parseMs st snap delId).1 = true)
    (hall : 0 < (logoutAll parseMs st snap).1)
    (hemp : listAntigravityAccounts st' = []) :
    (login parseMs st snap serverStarted callback exchange accountIdGen
      nowIso).2.2 =
      syncToOpenCodePlugin parseMs
        (login parseMs st snap serverStarted callback exchange accountIdGen
          nowIso).2.1 ∧
    (logout parseMs st snap delId).2.2 =
      syncToOpenCodePlugin parseMs (logout parseMs st snap delId).2.1 ∧
    (logoutAll parseMs st snap).2.2 =
      syncToOpenCodePlugin parseMs (logoutAll parseMs st snap).2.1 ∧
    syncToOpenCodePlugin parseMs st' = none ∧
    (getValidAccessTokenSnap st snap delId now nowIso refresh).2 = snap := by
  refine ⟨?_, ?_, ?_, ?_, rfl⟩
  · unfold login at hlogin ⊢
    by_cases hs : serverStarted
    · simp only [hs] at hlogin ⊢
      cases callback with
      | err e => simp at hlogin
      | ok code cbState =>
          cases hex : exchange code cbState with
          | failed e => simp [hex] at hlogin
          | success s => simp [hex]
    · simp [hs] at hlogin
  · unfold logout at hdel ⊢
    by_cases hd : (deleteAntigravityTokens st delId).1
    · simp [hd]
    · simp [hd] at hdel
  · unfold logoutAll at hall ⊢
    by_cases hn : 0 < (logoutAllGo (listAntigravityAccounts st) st 0).1
    · simp [hn]
    · simp [hn] at hall
  · have hnil : st' = [] := by
      cases st' with
      | nil => rfl
      | cons e rest => simp [listAntigravityAccounts] at hemp
    subst hnil
    rfl

/-- Witness for the amended C5 at a concrete one-account store with a
successful login, a deleting logout and logout-all, an empty store, and a
`getValidAccessToken` call. -/
theorem snapshot_regeneration_policy_witness :
    (login sampleParseMs sampleStore none true (.ok "code" "state")
      (fun _ _ => .success { accessToken := "AT"
                             refreshToken := "RT"
                             expiresAt := 100
                             email := none
                             projectId := "pp" }) "b" "n").2.2 =
      syncToOpenCodePlugin sampleParseMs
        (login sampleParseMs sampleStore none true (.ok "code" "state")
          (fun _ _ => .success { accessToken := "AT"
                                 refreshToken := "RT"
                                 expiresAt := 100
                                 email := none
                                 projectId := "pp" }) "b" "n").2.1 ∧
    (logout sampleParseMs sampleStore none "a").2.2 =
      syncToOpenCodePlugin sampleParseMs
        (logout sampleParseMs sampleStore none "a").2.1 ∧
    (logoutAll sampleParseMs sampleStore none).2.2 =
      syncToOpenCodePlugin sampleParseMs
        (logoutAll sampleParseMs sampleStore none).2.1 ∧
    syncToOpenCodePlugin sampleParseMs [] = none ∧
    (getValidAccessTokenSnap sampleStore none "a" 0 "n"
      (fun _ => .error "x")).2 = none :=
  snapshot_regeneration_policy sampleParseMs sampleStore [] none true
    (.ok "code" "state")
    (fun _ _ => .success { accessToken := "AT"
                           refreshToken := "RT"
                           expiresAt := 100
                           email := none
                           projectId := "pp" })
    "b" "n" "a" 0 (fun _ => .error "x")
    (by decide) (by decide) (by decide) rfl

/-- C4 counterexample: a token-endpoint response omitting `refresh_token`
combined with a *thrown* user-info fetch (network failure or the 10-second
abort, which runs before the refresh-token check) fails the exchange with
the thrown message — not with "Missing refresh token in response" — so the
claim's exact error string does not hold for every such token response. -/
theorem missing_refresh_token_thrown_counterexample :
    exchangeCodeForTokens "abc"
      (encodeState { verifier := "v", projectId := "" }) 0
      (.ok { access_token := "AT", expires_in := 3600,
             refresh_token := none, token_type := "Bearer" })
      (.thrown "userinfo fetch timed out") "" =
      .failed "userinfo fetch timed out" ∧
    exchangeCodeForTokens "abc"
      (encodeState { verifier := "v", projectId := "" }) 0
      (.ok { access_token := "AT", expires_in := 3600,
             refresh_token := none, token_type := "Bearer" })
      (.thrown "userinfo fetch timed out") "" ≠
      .failed "Missing refresh token in response" := by
  constructor
  · rfl
  · intro h
    rw [show exchangeCodeForTokens "abc"
        (encodeState { verifier := "v", projectId := "" }) 0
        (.ok { access_token := "AT", expires_in := 3600,
               refresh_token := none, token_type := "Bearer" })
        (.thrown "userinfo fetch timed out") "" =
        .failed "userinfo fetch timed out" from rfl] at h
    exact absurd h (by decide)

/-- C4 (amended): when the token-endpoint response omits `refresh_token` and
the best-effort user-info fetch completes (it may be non-OK but does not
throw — a thrown fetch instead fails the exchange with the thrown message
before the refresh-token check), `exchangeCodeForTokens` fails with exactly
the error string "Missing refresh token in response", and a `login` built on
that exchange returns `success := false` carrying that error, leaving the
store and the snapshot unmutated. -/
theorem missing_refresh_token_fails_login (code state : String)
    (startTime : Int) (payload : GoogleTokenResponse)
    (userInfoResp : UserInfoResp) (disc : String) (a : AuthState)
    (parseMs : String → Int) (st : Store) (snap : Option OpenCodeStorage)
    (accountIdGen nowIso : String)
    (hdec : decodeState state = .ok a)
    (hrt : payload.refresh_token = none)
    (hthr : ∀ msg, userInfoResp ≠ .thrown msg) :
    exchangeCodeForTokens code state startTime (.ok payload) userInfoResp
      disc = .failed "Missing refresh token in response" ∧
    login parseMs st snap true (.ok code state)
        (fun c s => exchangeCodeForTokens c s startTime (.ok payload)
          userInfoResp disc) accountIdGen nowIso =
      ({ success := false, account := none,
         error := some "Missing refresh token in response" }, st, snap) := by
  have hex : exchangeCodeForTokens code state startTime (.ok payload)
      userInfoResp disc = .failed "Missing refresh token in response" := by
    unfold exchangeCodeForTokens
    rw [hdec]
    cases userInfoResp with
    | ok u => simp [hrt, jsTruthy]
    | notOk => simp [hrt, jsTruthy]
    | thrown msg => exact absurd rfl (hthr msg)
  refine ⟨hex, ?_⟩
  simp [login, hex]

/-- Witness for the amended C4 at a concrete state token, a concrete token
response missing `refresh_token`, and a completed non-OK user-info fetch. -/
theorem missing_refresh_token_fails_login_witness :
    exchangeCodeForTokens "abc" (encodeState { verifier := "v", projectId := "" })
      0 (.ok { access_token := "AT", expires_in := 3600,
               refresh_token := none, token_type := "Bearer" })
      .notOk "" = .failed "Missing refresh token in response" ∧
    login sampleParseMs sampleStore none true
        (.ok "abc" (encodeState { verifier := "v", projectId := "" }))
        (fun c s => exchangeCodeForTokens c s 0
          (.ok { access_token := "AT", expires_in := 3600,
                 refresh_token := none, token_type := "Bearer" })
          .notOk "") "b" "n" =
      ({ success := false, account := none,
         error := some "Missing refresh token in response" },
       sampleStore, none) :=
  missing_refresh_token_fails_login "abc"
    (encodeState { verifier := "v", projectId := "" }) 0
    { access_token := "AT", expires_in := 3600, refresh_token := none,
      token_type := "Bearer" }
    .notOk "" { verifier := "v", projectId := "" }
    sampleParseMs sampleStore none "b" "n" rfl rfl
    (fun _ h => UserInfoResp.noConfusion h)

/-! ## Codec lemmas -/

/-- Rebuilding a string from its character list is the identity. -/
theorem string_mk_data (s : String) : String.mk s.data = s := rfl

theorem decodeScalar_toNat (c : Char) : decodeScalar c.toNat = some c := by
  have hv : c.toNat.isValidChar := c.valid
  unfold decodeScalar
  rw [dif_pos hv]
  have h := Char.ofNat_toNat c
  rw [Char.ofNat, dif_pos hv] at h
  rw [h]

theorem char_toNat_lt (c : Char) : c.toNat < 1114112 := by
  have hv : c.toNat.isValidChar := c.valid
  rcases hv with h | ⟨h1, h2⟩ <;> omega

theorem utf8EncodeChar_lt (c : Char) : ∀ b ∈ utf8EncodeChar c, b < 256 := by
  have hn := char_toNat_lt c
  intro b hb
  unfold utf8EncodeChar at hb
  dsimp only at hb
  split_ifs at hb <;>
    simp only [List.mem_cons, List.not_mem_nil, or_false] at hb
  · omega
  · rcases hb with rfl | rfl <;> omega
  · rcases hb with rfl | rfl | rfl <;> omega
  · rcases hb with rfl | rfl | rfl | rfl <;> omega

theorem utf8EncodeChar_length_pos (c : Char) : 0 < (utf8EncodeChar c).length := by
  unfold utf8EncodeChar
  dsimp only
  split_ifs <;> simp

theorem utf8DecodeChar_encodeChar (c : Char) (rest : List Nat) :
    utf8DecodeChar (utf8EncodeChar c ++ rest) = some (c, rest) := by
  have hn := char_toNat_lt c
  unfold utf8EncodeChar
  dsimp only
  by_cases h1 : c.toNat < 128
  · rw [if_pos h1, List.cons_append, List.nil_append]
    unfold utf8DecodeChar
    dsimp only
    rw [if_pos h1, decodeScalar_toNat]
  · rw [if_neg h1]
    by_cases h2 : c.toNat < 2048
    · rw [if_pos h2, List.cons_append, List.cons_append, List.nil_append]
      unfold utf8DecodeChar
      dsimp only
      rw [if_neg (by omega), if_neg (by omega), if_pos (by omega),
        if_pos (by refine ⟨by omega, by omega, by omega⟩)]
      have hval : (192 + c.toNat / 64 - 192) * 64 + (128 + c.toNat % 64 - 128) =
          c.toNat := by omega
      rw [hval, decodeScalar_toNat]
    · rw [if_neg h2]
      by_cases h3 : c.toNat < 65536
      · rw [if_pos h3, List.cons_append, List.cons_append, List.cons_append,
          List.nil_append]
        unfold utf8DecodeChar
        dsimp only
        rw [if_neg (by omega), if_neg (by omega), if_neg (by omega),
          if_pos (by omega),
          if_pos (by refine ⟨by omega, by omega, by omega, by omega, by omega⟩)]
        have hval : (224 + c.toNat / 4096 - 224) * 4096 +
            (128 + c.toNat / 64 % 64 - 128) * 64 + (128 + c.toNat % 64 - 128) =
            c.toNat := by omega
        rw [hval, decodeScalar_toNat]
      · rw [if_neg h3, List.cons_append, List.cons_append, List.cons_append,
          List.cons_append, List.nil_append]
        unfold utf8DecodeChar
        dsimp only
        rw [if_neg (by omega), if_neg (by omega), if_neg (by omega),
          if_neg (by omega), if_pos (by omega),
          if_pos (by refine ⟨by omega, by omega, by omega, by omega, by omega,
            by omega, by omega⟩)]
        have hval : (240 + c.toNat / 262144 - 240) * 262144 +
            (128 + c.toNat / 4096 % 64 - 128) * 4096 +
            (128 + c.toNat / 64 % 64 - 128) * 64 + (128 + c.toNat % 64 - 128) =
            c.toNat := by omega
        rw [hval, decodeScalar_toNat]

theorem utf8DecodeGo_encode (s : List Char) :
    ∀ fuel, (utf8Encode s).length ≤ fuel →
      utf8DecodeGo fuel (utf8Encode s) = some s := by
  induction s with
  | nil => intro fuel _; cases fuel <;> rfl
  | cons c cs ih =>
      intro fuel hfuel
      have henc : utf8Encode (c :: cs) = utf8EncodeChar c ++ utf8Encode cs := by
        simp [utf8Encode]
      have hpos := utf8EncodeChar_length_pos c
      rw [henc] at hfuel ⊢
      have hlen : 0 < (utf8EncodeChar c ++ utf8Encode cs).length := by
        simp; omega
      cases fuel with
      | zero => omega
      | succ f =>
          obtain ⟨b, bs, hb⟩ : ∃ b bs, utf8EncodeChar c ++ utf8Encode cs = b :: bs := by
            cases hx : utf8EncodeChar c ++ utf8Encode cs with
            | nil => rw [hx] at hlen; simp at hlen
            | cons b bs => exact ⟨b, bs, rfl⟩
          rw [hb]
          rw [utf8DecodeGo]
          rw [← hb, utf8DecodeChar_encodeChar c (utf8Encode cs)]
          dsimp only
          rw [ih f (by rw [List.length_append] at hfuel; omega)]

theorem utf8Decode_utf8Encode (s : List Char) :
    utf8Decode (utf8Encode s) = some s :=
  utf8DecodeGo_encode s (utf8Encode s).length (Nat.le_refl _)


/-- Bytes of a UTF-8 encoded string are bytes. -/
theorem utf8Encode_lt (s : List Char) : ∀ b ∈ utf8Encode s, b < 256 := by
  induction s with
  | nil => simp [utf8Encode]
  | cons c cs ih =>
      intro b hb
      simp only [utf8Encode, List.map_cons, List.flatten_cons,
        List.mem_append] at hb
      rcases hb with hb | hb
      · exact utf8EncodeChar_lt c b hb
      · exact ih b hb

/-! ## Base64, JSON and flow-state round-trip proofs (C7), PKCE shape (C8) -/

/-- Decoding a six-bit value's own character yields the value back. -/
theorem sextetOf_sextetChar : ∀ v : Nat, v < 64 → sextetOf (sextetChar v) = some v := by
  decide

/-- The `decodeState` normalization inverts the URL-safe substitution on alphabet characters. -/
theorem norm_toUrlSafe_sextetChar : ∀ v : Nat, v < 64 →
    (fun c => if c = '-' then '+' else if c = '_' then '/' else c)
      (toUrlSafe (sextetChar v)) = sextetChar v := by
  decide

/-- Every character of a base64 encoding of bytes is an alphabet character with a six-bit value. -/
theorem mem_base64EncodeNoPad (bs : List Nat) (hb : ∀ b ∈ bs, b < 256) :
    ∀ c ∈ base64EncodeNoPad bs, ∃ v, v < 64 ∧ c = sextetChar v := by
  induction bs using base64EncodeNoPad.induct with
  | case1 => simp [base64EncodeNoPad]
  | case2 b1 =>
      have hb1 : b1 < 256 := hb b1 (by simp)
      intro c hc
      simp only [base64EncodeNoPad, List.mem_cons, List.not_mem_nil, or_false] at hc
      rcases hc with rfl | rfl
      · exact ⟨b1 / 4, by omega, rfl⟩
      · exact ⟨b1 % 4 * 16, by omega, rfl⟩
  | case3 b1 b2 =>
      have hb1 : b1 < 256 := hb b1 (by simp)
      have hb2 : b2 < 256 := hb b2 (by simp)
      intro c hc
      simp only [base64EncodeNoPad, List.mem_cons, List.not_mem_nil, or_false] at hc
      rcases hc with rfl | rfl | rfl
      · exact ⟨b1 / 4, by omega, rfl⟩
      · exact ⟨b1 % 4 * 16 + b2 / 16, by omega, rfl⟩
      · exact ⟨b2 % 16 * 4, by omega, rfl⟩
  | case4 b1 b2 b3 rest ih =>
      have hb1 : b1 < 256 := hb b1 (by simp)
      have hb2 : b2 < 256 := hb b2 (by simp)
      have hb3 : b3 < 256 := hb b3 (by simp)
      intro c hc
      simp only [base64EncodeNoPad, List.mem_cons] at hc
      rcases hc with rfl | rfl | rfl | rfl | hc
      · exact ⟨b1 / 4, by omega, rfl⟩
      · exact ⟨b1 % 4 * 16 + b2 / 16, by omega, rfl⟩
      · exact ⟨b2 % 16 * 4 + b3 / 64, by omega, rfl⟩
      · exact ⟨b3 % 64, by omega, rfl⟩
      · exact ih (fun b hbm => hb b (by simp [hbm])) c hc


/-- Base64 sextet decoding inverts the encoding of a byte list. -/
theorem base64DecodeSextets_encode (bs : List Nat) (hb : ∀ b ∈ bs, b < 256) :
    base64DecodeSextets (List.filterMap sextetOf (base64EncodeNoPad bs)) = bs := by
  induction bs using base64EncodeNoPad.induct with
  | case1 => rfl
  | case2 b1 =>
      have hb1 : b1 < 256 := hb b1 (by simp)
      simp only [base64EncodeNoPad, List.filterMap_cons,
        sextetOf_sextetChar (b1 / 4) (by omega),
        sextetOf_sextetChar (b1 % 4 * 16) (by omega), List.filterMap_nil]
      unfold base64DecodeSextets
      have h : b1 / 4 * 4 + b1 % 4 * 16 / 16 = b1 := by omega
      rw [h]
  | case3 b1 b2 =>
      have hb1 : b1 < 256 := hb b1 (by simp)
      have hb2 : b2 < 256 := hb b2 (by simp)
      simp only [base64EncodeNoPad, List.filterMap_cons,
        sextetOf_sextetChar (b1 / 4) (by omega),
        sextetOf_sextetChar (b1 % 4 * 16 + b2 / 16) (by omega),
        sextetOf_sextetChar (b2 % 16 * 4) (by omega), List.filterMap_nil]
      unfold base64DecodeSextets
      have h1 : b1 / 4 * 4 + (b1 % 4 * 16 + b2 / 16) / 16 = b1 := by omega
      have h2 : (b1 % 4 * 16 + b2 / 16) % 16 * 16 + b2 % 16 * 4 / 4 = b2 := by
        omega
      rw [h1, h2]
  | case4 b1 b2 b3 rest ih =>
      have hb1 : b1 < 256 := hb b1 (by simp)
      have hb2 : b2 < 256 := hb b2 (by simp)
      have hb3 : b3 < 256 := hb b3 (by simp)
      have ih2 := ih (fun b hbm => hb b (by simp [hbm]))
      simp only [base64EncodeNoPad, List.filterMap_cons,
        sextetOf_sextetChar (b1 / 4) (by omega),
        sextetOf_sextetChar (b1 % 4 * 16 + b2 / 16) (by omega),
        sextetOf_sextetChar (b2 % 16 * 4 + b3 / 64) (by omega),
        sextetOf_sextetChar (b3 % 64) (by omega)]
      unfold base64DecodeSextets
      have h1 : b1 / 4 * 4 + (b1 % 4 * 16 + b2 / 16) / 16 = b1 := by omega
      have h2 : (b1 % 4 * 16 + b2 / 16) % 16 * 16 +
          (b2 % 16 * 4 + b3 / 64) / 4 = b2 := by omega
      have h3 : (b2 % 16 * 4 + b3 / 64) % 4 * 64 + b3 % 64 = b3 := by omega
      rw [h1, h2, h3, ih2]

/-- Padding characters contribute no sextets. -/
theorem filterMap_sextetOf_replicate_eq (k : Nat) :
    List.filterMap sextetOf (List.replicate k '=') = [] := by
  induction k with
  | zero => rfl
  | succ n ih =>
      rw [List.replicate_succ, List.filterMap_cons,
        show sextetOf '=' = none from by decide, ih]

/-- Normalizing a URL-safe base64 encoding recovers the standard-alphabet encoding. -/
theorem map_norm_base64UrlEncode (bs : List Nat) (hb : ∀ b ∈ bs, b < 256) :
    List.map (fun c => if c = '-' then '+' else if c = '_' then '/' else c)
      (base64UrlEncode bs) = base64EncodeNoPad bs := by
  unfold base64UrlEncode
  rw [List.map_map]
  have hmem := mem_base64EncodeNoPad bs hb
  conv_rhs => rw [← List.map_id (base64EncodeNoPad bs)]
  apply List.map_congr_left
  intro c hc
  obtain ⟨v, hv, rfl⟩ := hmem c hc
  exact norm_toUrlSafe_sextetChar v hv

/-- The `decodeState` normalize-pad-decode pipeline inverts `base64UrlEncode` on byte lists. -/
theorem base64Decode_norm_pad (bs : List Nat) (hb : ∀ b ∈ bs, b < 256) (k : Nat) :
    base64Decode
      (List.map (fun c => if c = '-' then '+' else if c = '_' then '/' else c)
        (base64UrlEncode bs) ++ List.replicate k '=') = bs := by
  unfold base64Decode
  rw [map_norm_base64UrlEncode bs hb, List.filterMap_append,
    filterMap_sextetOf_replicate_eq, List.append_nil]
  exact base64DecodeSextets_encode bs hb


/-- Reading a hexadecimal digit back yields its value. -/
theorem hexVal_hexDigit : ∀ v : Nat, v < 16 → hexVal (hexDigit v) = some v := by
  decide

/-- The JSON string-body parser inverts `JSON.stringify` escaping, for every character string. -/
theorem parse_quoteJsonBody (s : List Char) :
    ∀ rest, parseJsonStringBody (quoteJsonBody s ++ rest) = some (s, rest) := by
  induction s with
  | nil =>
      intro rest
      rw [show quoteJsonBody ([] : List Char) = ['"'] from rfl,
        List.cons_append, List.nil_append]
      unfold parseJsonStringBody
      rw [if_pos rfl]
  | cons c cs ih =>
      intro rest
      rw [show quoteJsonBody (c :: cs) = escapeJsonChar c ++ quoteJsonBody cs
        from rfl, List.append_assoc]
      by_cases h1 : c = '"'
      · subst h1
        rw [show escapeJsonChar '"' = ['\\', '"'] from by decide,
          List.cons_append, List.cons_append, List.nil_append]
        unfold parseJsonStringBody
        rw [if_neg (by decide), if_pos rfl]
        try dsimp only
        rw [if_neg (by decide)]
        try dsimp only
        rw [if_pos rfl, ih rest]
      · by_cases h2 : c = '\\'
        · subst h2
          rw [show escapeJsonChar '\\' = ['\\', '\\'] from by decide,
            List.cons_append, List.cons_append, List.nil_append]
          unfold parseJsonStringBody
          rw [if_neg (by decide), if_pos rfl]
          try dsimp only
          rw [if_neg (by decide)]
          try dsimp only
          rw [if_neg (by decide), if_pos rfl, ih rest]
        · by_cases h3 : c = '\x08'
          · subst h3
            rw [show escapeJsonChar '\x08' = ['\\', 'b'] from by decide,
              List.cons_append, List.cons_append, List.nil_append]
            unfold parseJsonStringBody
            rw [if_neg (by decide), if_pos rfl]
            try dsimp only
            rw [if_neg (by decide)]
            try dsimp only
            rw [if_neg (by decide), if_neg (by decide), if_neg (by decide),
              if_pos rfl, ih rest]
          · by_cases h4 : c = '\x0c'
            · subst h4
              rw [show escapeJsonChar '\x0c' = ['\\', 'f'] from by decide,
                List.cons_append, List.cons_append, List.nil_append]
              unfold parseJsonStringBody
              rw [if_neg (by decide), if_pos rfl]
              try dsimp only
              rw [if_neg (by decide)]
              try dsimp only
              rw [if_neg (by decide), if_neg (by decide), if_neg (by decide),
                if_neg (by decide), if_pos rfl, ih rest]
            · by_cases h5 : c = '\n'
              · subst h5
                rw [show escapeJsonChar '\n' = ['\\', 'n'] from by decide,
                  List.cons_append, List.cons_append, List.nil_append]
                unfold parseJsonStringBody
                rw [if_neg (by decide), if_pos rfl]
                try dsimp only
                rw [if_neg (by decide)]
                try dsimp only
                rw [if_neg (by decide), if_neg (by decide), if_neg (by decide),
                  if_neg (by decide), if_neg (by decide), if_pos rfl, ih rest]
              · by_cases h6 : c = '\r'
                · subst h6
                  rw [show escapeJsonChar '\r' = ['\\', 'r'] from by decide,
                    List.cons_append, List.cons_append, List.nil_append]
                  unfold parseJsonStringBody
                  rw [if_neg (by decide), if_pos rfl]
                  try dsimp only
                  rw [if_neg (by decide)]
                  try dsimp only
                  rw [if_neg (by decide), if_neg (by decide), if_neg (by decide),
                    if_neg (by decide), if_neg (by decide), if_neg (by decide),
                    if_pos rfl, ih rest]
                · by_cases h7 : c = '\t'
                  · subst h7
                    rw [show escapeJsonChar '\t' = ['\\', 't'] from by decide,
                      List.cons_append, List.cons_append, List.nil_append]
                    unfold parseJsonStringBody
                    rw [if_neg (by decide), if_pos rfl]
                    try dsimp only
                    rw [if_neg (by decide)]
                    try dsimp only
                    rw [if_neg (by decide), if_neg (by decide), if_neg (by decide),
                      if_neg (by decide), if_neg (by decide), if_neg (by decide),
                      if_neg (by decide), if_pos rfl, ih rest]
                  · by_cases h8 : c.toNat < 32
                    · rw [show escapeJsonChar c =
                        ['\\', 'u', '0', '0', hexDigit (c.toNat / 16),
                         hexDigit (c.toNat % 16)] from by
                        simp [escapeJsonChar, h1, h2, h3, h4, h5, h6, h7, h8]]
                      rw [List.cons_append, List.cons_append, List.cons_append,
                        List.cons_append, List.cons_append, List.cons_append,
                        List.nil_append]
                      unfold parseJsonStringBody
                      rw [if_neg (by decide), if_pos rfl]
                      try dsimp only
                      rw [if_pos rfl]
                      try dsimp only
                      rw [show hexVal '0' = some 0 from by decide,
                        hexVal_hexDigit (c.toNat / 16) (by omega),
                        hexVal_hexDigit (c.toNat % 16) (by omega)]
                      try dsimp only
                      rw [show 0 * 4096 + 0 * 256 + c.toNat / 16 * 16 +
                        c.toNat % 16 = c.toNat from by omega]
                      rw [decodeScalar_toNat, ih rest]
                    · rw [show escapeJsonChar c = [c] from by
                        simp [escapeJsonChar, h1, h2, h3, h4, h5, h6, h7, h8]]
                      rw [List.cons_append, List.nil_append]
                      unfold parseJsonStringBody
                      rw [if_neg h1, if_neg h2, if_neg h8, ih rest]


/-- Whitespace skipping stops at a non-whitespace character. -/
theorem skipWs_cons (c : Char) (l : List Char)
    (h : ¬(c = ' ' ∨ c = '\t' ∨ c = '\n' ∨ c = '\r')) :
    skipWs (c :: l) = c :: l := by
  unfold skipWs
  rw [if_neg h]

/-- The value parser reads a quoted string back. -/
theorem parseJsonVal_string (g : Nat) (s r : List Char) :
    parseJsonVal (g + 1) ('"' :: (quoteJsonBody s ++ r)) =
      some (.str (String.mk s), r) := by
  rw [parseJsonVal]
  rw [skipWs_cons '"' _ (by decide)]
  dsimp only
  rw [if_pos rfl, parse_quoteJsonBody]

/-- The member parser reads a final `"key":"value"` member and the closing brace. -/
theorem parseJsonMembers_single (g : Nat) (k v r : List Char) :
    parseJsonMembers (g + 2)
      ('"' :: (quoteJsonBody k ++ (':' :: ('"' :: (quoteJsonBody v ++
        ('\x7d' :: r)))))) =
      some ([(String.mk k, .str (String.mk v))], r) := by
  rw [show g + 2 = (g + 1) + 1 from rfl, parseJsonMembers]
  rw [skipWs_cons '"' _ (by decide)]
  dsimp only
  rw [if_pos rfl, parse_quoteJsonBody]
  dsimp only
  rw [skipWs_cons ':' _ (by decide)]
  dsimp only
  rw [if_pos rfl]
  rw [parseJsonVal_string g v ('\x7d' :: r)]
  dsimp only
  rw [skipWs_cons '\x7d' _ (by decide)]
  dsimp only
  rw [if_neg (by decide)]
  rw [if_pos rfl]

/-- The member parser reads two `"key":"value"` members and the closing brace. -/
theorem parseJsonMembers_pair (g : Nat) (k1 v1 k2 v2 r : List Char) :
    parseJsonMembers (g + 3)
      ('"' :: (quoteJsonBody k1 ++ (':' :: ('"' :: (quoteJsonBody v1 ++
        (',' :: ('"' :: (quoteJsonBody k2 ++ (':' :: ('"' :: (quoteJsonBody v2 ++
        ('\x7d' :: r)))))))))))) =
      some ([(String.mk k1, .str (String.mk v1)),
             (String.mk k2, .str (String.mk v2))], r) := by
  rw [show g + 3 = (g + 2) + 1 from rfl, parseJsonMembers]
  rw [skipWs_cons '"' _ (by decide)]
  dsimp only
  rw [if_pos rfl, parse_quoteJsonBody]
  dsimp only
  rw [skipWs_cons ':' _ (by decide)]
  dsimp only
  rw [if_pos rfl]
  rw [show (g + 2 : Nat) = (g + 1) + 1 from rfl]
  rw [parseJsonVal_string (g + 1) v1]
  dsimp only
  rw [skipWs_cons ',' _ (by decide)]
  dsimp only
  rw [if_pos rfl]
  rw [show (g + 1) + 1 = g + 2 from rfl]
  rw [parseJsonMembers_single g k2 v2 r]

/-- Parsing the stringified `AuthState` object yields its two string fields. -/
theorem parseJsonVal_stringifyAuthState (f : Nat) (a : AuthState) :
    parseJsonVal (f + 4) (jsonStringifyAuthState a) =
      some (.obj [("verifier", .str a.verifier),
                  ("projectId", .str a.projectId)], []) := by
  rw [show jsonStringifyAuthState a =
    '\x7b' :: ('"' :: (quoteJsonBody "verifier".data ++ (':' ::
      ('"' :: (quoteJsonBody a.verifier.data ++ (',' ::
      ('"' :: (quoteJsonBody "projectId".data ++ (':' ::
      ('"' :: (quoteJsonBody a.projectId.data ++
      ('\x7d' :: ([] : List Char))))))))))))) from by
    simp [jsonStringifyAuthState, quoteJsonString]]
  rw [show f + 4 = (f + 3) + 1 from rfl, parseJsonVal]
  rw [skipWs_cons '\x7b' _ (by decide)]
  dsimp only
  rw [if_neg (by decide), if_pos rfl]
  rw [skipWs_cons '"' _ (by decide)]
  dsimp only
  rw [if_neg (by decide)]
  rw [parseJsonMembers_pair f "verifier".data a.verifier.data
    "projectId".data a.projectId.data []]


/-- Round trip of the flow-state codec: decoding an encoded `AuthState` is the identity. -/
theorem decodeState_encodeState (a : AuthState) :
    decodeState (encodeState a) = .ok a := by
  unfold decodeState encodeState
  dsimp only
  rw [base64Decode_norm_pad _ (utf8Encode_lt _) _]
  rw [utf8Decode_utf8Encode]
  dsimp only
  unfold jsonParse
  dsimp only
  rw [parseJsonVal_stringifyAuthState ((jsonStringifyAuthState a).length) a]
  dsimp only
  rw [if_pos (show skipWs [] = [] from rfl)]
  simp [jsonField, jsonField.lookupLast]


/-- Character count of an unpadded base64 encoding. -/
theorem base64EncodeNoPad_length (bs : List Nat) :
    (base64EncodeNoPad bs).length = (bs.length * 4 + 2) / 3 := by
  induction bs using base64EncodeNoPad.induct with
  | case1 => rfl
  | case2 b1 => simp [base64EncodeNoPad]
  | case3 b1 b2 => simp [base64EncodeNoPad]
  | case4 b1 b2 b3 rest ih =>
      simp only [base64EncodeNoPad, List.length_cons, ih]
      omega

/-- Every character of a base64 encoding is some alphabet character. -/
theorem mem_base64EncodeNoPad_shape (bs : List Nat) :
    ∀ c ∈ base64EncodeNoPad bs, ∃ v, c = sextetChar v := by
  induction bs using base64EncodeNoPad.induct with
  | case1 => simp [base64EncodeNoPad]
  | case2 b1 =>
      intro c hc
      simp only [base64EncodeNoPad, List.mem_cons, List.not_mem_nil,
        or_false] at hc
      rcases hc with rfl | rfl <;> exact ⟨_, rfl⟩
  | case3 b1 b2 =>
      intro c hc
      simp only [base64EncodeNoPad, List.mem_cons, List.not_mem_nil,
        or_false] at hc
      rcases hc with rfl | rfl | rfl <;> exact ⟨_, rfl⟩
  | case4 b1 b2 b3 rest ih =>
      intro c hc
      simp only [base64EncodeNoPad, List.mem_cons] at hc
      rcases hc with rfl | rfl | rfl | rfl | hc
      · exact ⟨_, rfl⟩
      · exact ⟨_, rfl⟩
      · exact ⟨_, rfl⟩
      · exact ⟨_, rfl⟩
      · exact ih c hc

/-- URL-safe substituted alphabet characters lie in the URL-safe base64 alphabet. -/
theorem isUrlSafe_toUrlSafe_sextetChar (v : Nat) :
    isUrlSafeB64Char (toUrlSafe (sextetChar v)) = true := by
  by_cases h : v < 64
  · have hall : ∀ w : Nat, w < 64 →
        isUrlSafeB64Char (toUrlSafe (sextetChar w)) = true := by decide
    exact hall v h
  · rw [sextetChar, List.getD_eq_default]
    · decide
    · have : base64StdAlphabet.length = 64 := by decide
      omega

/-- URL-safe substituted alphabet characters are never the padding character. -/
theorem toUrlSafe_sextetChar_ne_pad (v : Nat) :
    toUrlSafe (sextetChar v) ≠ '=' := by
  by_cases h : v < 64
  · have hall : ∀ w : Nat, w < 64 → toUrlSafe (sextetChar w) ≠ '=' := by decide
    exact hall v h
  · rw [sextetChar, List.getD_eq_default]
    · decide
    · have : base64StdAlphabet.length = 64 := by decide
      omega

/-- Substituting and stripping padding from a padded base64 encoding yields the unpadded URL-safe encoding. -/
theorem strip_pad_map_toUrlSafe (bs : List Nat) :
    ((base64EncodePadded bs).map toUrlSafe).filter (· ≠ '=') =
      base64UrlEncode bs := by
  unfold base64EncodePadded base64UrlEncode
  rw [List.map_append, List.filter_append]
  have h1 : ((base64EncodeNoPad bs).map toUrlSafe).filter (· ≠ '=') =
      (base64EncodeNoPad bs).map toUrlSafe := by
    apply List.filter_eq_self.mpr
    intro c hc
    obtain ⟨x, hx, rfl⟩ := List.mem_map.mp hc
    obtain ⟨v, rfl⟩ := mem_base64EncodeNoPad_shape bs x hx
    simpa using toUrlSafe_sextetChar_ne_pad v
  have h2 : ((base64PadChars bs.length).map toUrlSafe).filter (· ≠ '=') = [] := by
    unfold base64PadChars
    split_ifs <;> decide
  rw [h1, h2, List.append_nil]

/-- A 64-byte draw yields a 64-character verifier. -/
theorem generateRandomString_length (bytes : List Nat)
    (h : bytes.length = 64) :
    (generateRandomString 64 bytes).length = 64 := by
  unfold generateRandomString
  rw [strip_pad_map_toUrlSafe, List.length_take]
  unfold base64UrlEncode
  rw [List.length_map, base64EncodeNoPad_length, h]
  decide

/-- Every verifier character lies in the URL-safe base64 alphabet. -/
theorem generateRandomString_alphabet (bytes : List Nat) :
    ∀ c ∈ generateRandomString 64 bytes, isUrlSafeB64Char c = true := by
  unfold generateRandomString
  rw [strip_pad_map_toUrlSafe]
  intro c hc
  have hc2 := List.take_subset 64 _ hc
  obtain ⟨x, hx, rfl⟩ := List.mem_map.mp hc2
  obtain ⟨v, rfl⟩ := mem_base64EncodeNoPad_shape bytes x hx
  exact isUrlSafe_toUrlSafe_sextetChar v


/-- C7: for every verifier string `v` and every hint string `h` (including the empty string), `decodeState (encodeState {verifier := v, projectId := h})` yields exactly `{verifier := v, projectId := h}`. -/
theorem decodeState_encodeState_id (v h : String) :
    decodeState (encodeState { verifier := v, projectId := h }) =
      .ok { verifier := v, projectId := h } :=
  decodeState_encodeState { verifier := v, projectId := h }

/-- C8: every pair produced by `generatePKCE` from its 64 random bytes has a verifier of exactly 64 URL-safe base64 alphabet characters, and a challenge equal to the unpadded base64url encoding of the SHA-256 digest of the verifier, recomputed via `base64UrlEncode` and `sha256`. -/
theorem generatePKCE_spec (bytes : List Nat) (hlen : bytes.length = 64) :
    (generatePKCE bytes).verifier.length = 64 ∧
    (∀ c ∈ (generatePKCE bytes).verifier.data, isUrlSafeB64Char c = true) ∧
    (generatePKCE bytes).challenge =
      String.mk (base64UrlEncode
        (sha256 (utf8Encode (generatePKCE bytes).verifier.data))) := by
  refine ⟨?_, ?_, ?_⟩
  · show (generateRandomString 64 bytes).length = 64
    exact generateRandomString_length bytes hlen
  · intro c hc
    exact generateRandomString_alphabet bytes c hc
  · show String.mk
      (((base64EncodePadded
          (sha256 (utf8Encode (generateRandomString 64 bytes)))).map
          toUrlSafe).filter (· ≠ '=')) = _
    rw [strip_pad_map_toUrlSafe]
    rfl

/-- Witness for C8 at a concrete 64-byte draw. -/
theorem generatePKCE_spec_witness :
    (generatePKCE (List.range 64)).verifier.length = 64 ∧
    (∀ c ∈ (generatePKCE (List.range 64)).verifier.data,
      isUrlSafeB64Char c = true) ∧
    (generatePKCE (List.range 64)).challenge =
      String.mk (base64UrlEncode
        (sha256 (utf8Encode (generatePKCE (List.range 64)).verifier.data))) :=
  generatePKCE_spec (List.range 64) (by decide)


end Openwork
